import Mathlib

/-!
# Verification of the ChEMBL MCP server (TypeScript) against its specification

Shallow embedding of `src/unnamed/part_001` (the complete server implementation,
`class ChEMBLServer` plus its validators and derived-property calculators).
JavaScript numbers are modelled as rationals (`ℚ`), possibly-absent object
fields as `Option`, JSON documents as an inductive `Json` type, thrown
exceptions as `Except`, and the axios client as an oracle function from
requests to `Except String Json`.  JavaScript truthiness (`undefined`, `0`
and `""` are falsy) is modelled explicitly by the `jsTruthy*` / `jsOr*`
helpers, because the source leans on it (`props.hbd && props.hbd <= 5`,
`args.similarity || 0.7`, ...).
-/

namespace Chembl

/-- JSON-like values, the shape of ChEMBL API payloads and tool results. -/
inductive Json where
  | null
  | bool (b : Bool)
  | num (q : ℚ)
  | str (s : String)
  | arr (elems : List Json)
  | obj (fields : List (String × Json))
deriving Repr

/-- Field lookup on a JSON object (`x.k`); `none` models `undefined`. -/
def Json.get? : Json → String → Option Json
  | Json.obj fields, k => (fields.find? (fun p => p.1 == k)).map (fun p => p.2)
  | _, _ => none

/-- `x.k ?? d` : field lookup with a default. -/
def Json.getD (j : Json) (k : String) (d : Json) : Json :=
  (j.get? k).getD d

/-- `x.k || []` : array field lookup, defaulting to the empty array. -/
def Json.getArr (j : Json) (k : String) : List Json :=
  match j.get? k with
  | some (Json.arr xs) => xs
  | _ => []

/-- Numeric field lookup (`undefined` or a non-number gives `none`). -/
def Json.getNum? (j : Json) (k : String) : Option ℚ :=
  match j.get? k with
  | some (Json.num q) => some q
  | _ => none

/-- String field lookup (`undefined` or a non-string gives `none`). -/
def Json.getStr? (j : Json) (k : String) : Option String :=
  match j.get? k with
  | some (Json.str s) => some s
  | _ => none

/-! ## JavaScript truthiness and defaulting -/

/-- Truthiness of an optional JS number: `undefined` and `0` are falsy. -/
def jsTruthyNum : Option ℚ → Bool
  | none => false
  | some v => decide (v ≠ 0)

/-- Truthiness of an optional JS string: `undefined` and `""` are falsy. -/
def jsTruthyStr : Option String → Bool
  | none => false
  | some s => decide (s ≠ "")

/-- Truthiness of a JSON value (`null`, `false`, `0` and `""` are falsy). -/
def jsTruthyJson : Json → Bool
  | Json.null => false
  | Json.bool b => b
  | Json.num q => decide (q ≠ 0)
  | Json.str s => decide (s ≠ "")
  | Json.arr _ => true
  | Json.obj _ => true

/-- `x || d` on an optional JS number (`undefined` and `0` fall back to `d`). -/
def jsOrQ (x : Option ℚ) (d : ℚ) : ℚ :=
  match x with
  | none => d
  | some v => if v = 0 then d else v

/-- `x || d` on an optional JS string (`undefined` and `""` fall back to `d`). -/
def jsOrStr (x : Option String) (d : String) : String :=
  match x with
  | none => d
  | some s => if s = "" then d else s

/-- `x || d` on an optional JSON value, using JS truthiness. -/
def jsOrJ (x : Option Json) (d : Json) : Json :=
  match x with
  | none => d
  | some v => if jsTruthyJson v then v else d

/-- JS comparison `x <= t` where `x` may be `undefined`
(`undefined <= t` is `false` because `undefined` converts to `NaN`). -/
def jsLe (x : Option ℚ) (t : ℚ) : Bool :=
  match x with
  | none => false
  | some v => decide (v ≤ t)

/-- JS comparison `x > t` where `x` may be `undefined`. -/
def jsGt (x : Option ℚ) (t : ℚ) : Bool :=
  match x with
  | none => false
  | some v => decide (t < v)

/-! ## Molecular properties (`compound.molecule_properties`) -/

/-- The numeric/string property fields the server reads from
`molecule_properties` objects. -/
structure MolProps where
  molecular_weight : Option ℚ := none
  alogp : Option ℚ := none
  hbd : Option ℚ := none
  hba : Option ℚ := none
  psa : Option ℚ := none
  rtb : Option ℚ := none
  num_ro5_violations : Option ℚ := none
  ro3_pass : Option String := none
  heavy_atoms : Option ℚ := none
  rings : Option ℚ := none
  aromatic_rings : Option ℚ := none
  full_mwt : Option ℚ := none
  cx_logp : Option ℚ := none
  cx_logd : Option ℚ := none
  molecular_surface_area : Option ℚ := none
deriving Repr, DecidableEq

/-- Parse a `molecule_properties` JSON object into `MolProps`. -/
def MolProps.ofJson (j : Json) : MolProps :=
  { molecular_weight := j.getNum? ("molecular_weight")
    alogp := j.getNum? ("alogp")
    hbd := j.getNum? ("hbd")
    hba := j.getNum? ("hba")
    psa := j.getNum? ("psa")
    rtb := j.getNum? ("rtb")
    num_ro5_violations := j.getNum? ("num_ro5_violations")
    ro3_pass := j.getStr? ("ro3_pass")
    heavy_atoms := j.getNum? ("heavy_atoms")
    rings := j.getNum? ("rings")
    aromatic_rings := j.getNum? ("aromatic_rings")
    full_mwt := j.getNum? ("full_mwt")
    cx_logp := j.getNum? ("cx_logp")
    cx_logd := j.getNum? ("cx_logd")
    molecular_surface_area := j.getNum? ("molecular_surface_area") }

/-! ## Bioavailability score calculators (part_001 lines 1613-1625 and 1924-1936) -/

/-- One rule check of the bioavailability score calculators:
`props.x && props.x <= t`.  Because of JS truthiness a *present zero value
fails the check*, exactly as in the source. -/
def passChk (x : Option ℚ) (t : ℚ) : Bool :=
  match x with
  | none => false
  | some v => decide (v ≠ 0) && decide (v ≤ t)

/-- `calculateBioavailabilityScore` (part_001:1613-1625): six sequential
`if (cond) score++` checks, then `score / maxScore`. -/
def calculateBioavailabilityScore (props : MolProps) : ℚ :=
  let score : ℕ := 0
  let maxScore : ℚ := 6
  let score := if passChk props.molecular_weight 500 then score + 1 else score
  let score := if passChk props.alogp 5 then score + 1 else score
  let score := if passChk props.hbd 5 then score + 1 else score
  let score := if passChk props.hba 10 then score + 1 else score
  let score := if passChk props.psa 140 then score + 1 else score
  let score := if passChk props.rtb 10 then score + 1 else score
  (score : ℚ) / maxScore

/-- `calculateOralBioavailabilityScore` (part_001:1924-1936): the same six
checks, bucketed `>= 5 → High`, `>= 3 → Medium`, else `Low`. -/
def calculateOralBioavailabilityScore (props : MolProps) : String :=
  let score : ℕ := 0
  let score := if passChk props.molecular_weight 500 then score + 1 else score
  let score := if passChk props.alogp 5 then score + 1 else score
  let score := if passChk props.hbd 5 then score + 1 else score
  let score := if passChk props.hba 10 then score + 1 else score
  let score := if passChk props.psa 140 then score + 1 else score
  let score := if passChk props.rtb 10 then score + 1 else score
  if score ≥ 5 then "High"
  else if score ≥ 3 then "Medium"
  else "Low"

/-- The number of the six rule checks that pass under the code
semantics (present *and nonzero* and within threshold). -/
def bioChecksPassed (props : MolProps) : ℕ :=
  (passChk props.molecular_weight 500).toNat +
  (passChk props.alogp 5).toNat +
  (passChk props.hbd 5).toNat +
  (passChk props.hba 10).toNat +
  (passChk props.psa 140).toNat +
  (passChk props.rtb 10).toNat

/-- One rule check as the specification claim words it: the property is
present and `≤` its threshold (no nonzero requirement). -/
def claimChk (x : Option ℚ) (t : ℚ) : Bool :=
  match x with
  | none => false
  | some v => decide (v ≤ t)

/-- The number of the six rule checks that pass as the claim words them. -/
def claimChecksPassed (props : MolProps) : ℕ :=
  (claimChk props.molecular_weight 500).toNat +
  (claimChk props.alogp 5).toNat +
  (claimChk props.hbd 5).toNat +
  (claimChk props.hba 10).toNat +
  (claimChk props.psa 140).toNat +
  (claimChk props.rtb 10).toNat

/-! ## Lipinski assessment (inside `handleAssessDrugLikeness`, part_001:1874-1886) -/

/-- The `lipinski` record built by `handleAssessDrugLikeness`. -/
structure LipinskiAssessment where
  molecular_weight : Option ℚ
  mw_pass : Bool
  logp : Option ℚ
  logp_pass : Bool
  hbd : Option ℚ
  hbd_pass : Bool
  hba : Option ℚ
  hba_pass : Bool
  violations : ℚ
  overall_pass : Bool
deriving Repr, DecidableEq

/-- part_001:1874-1886: per-field `<=` checks (plain JS comparison, no
truthiness guard here) and `overall_pass: (props.num_ro5_violations || 0) <= 1`. -/
def lipinskiOf (props : MolProps) : LipinskiAssessment :=
  { molecular_weight := props.molecular_weight
    mw_pass := jsLe props.molecular_weight 500
    logp := props.alogp
    logp_pass := jsLe props.alogp 5
    hbd := props.hbd
    hbd_pass := jsLe props.hbd 5
    hba := props.hba
    hba_pass := jsLe props.hba 10
    violations := jsOrQ props.num_ro5_violations 0
    overall_pass := decide (jsOrQ props.num_ro5_violations 0 ≤ 1) }

/-- `psa_pass: props.psa <= 140` from the `additional_metrics` record
(part_001:1893). -/
def psaPassOf (props : MolProps) : Bool := jsLe props.psa 140

/-- `rtb_pass: props.rtb <= 10` from the `additional_metrics` record
(part_001:1895). -/
def rtbPassOf (props : MolProps) : Bool := jsLe props.rtb 10

/-! ## Solubility classification (part_001:1764-1770) -/

/-- `classifySolubility` : five bins with strict `>` breakpoints. -/
def classifySolubility (logS : ℚ) : String :=
  if logS > -1 then "Very Soluble (>10 mg/mL)"
  else if logS > -2 then "Soluble (1-10 mg/mL)"
  else if logS > -3 then "Moderately Soluble (0.1-1 mg/mL)"
  else if logS > -4 then "Slightly Soluble (0.01-0.1 mg/mL)"
  else "Poorly Soluble (<0.01 mg/mL)"

/-! ## The HTTP layer: requests, the axios oracle, and a call-tracing monad -/

/-- A query-parameter value (axios `params` entries are strings or numbers). -/
inductive PV where
  | str (s : String)
  | num (q : ℚ)
deriving Repr, DecidableEq

/-- One upstream GET request: URL path plus query parameters. -/
structure ApiReq where
  path : String
  params : List (String × PV) := []
deriving Repr, DecidableEq

/-- The upstream oracle: what `this.apiClient.get` answers for each request.
An `error` covers every failure mode (non-2xx status, network error,
timeout); the string is the error message. -/
def ApiFn := ApiReq → Except String Json

/-- Computations inside a handler's `try` block: issue requests against the
oracle, may throw (a JS `Error` with a message), and record every request
issued (the trace makes "reaches the network layer" statable). -/
def ApiM (α : Type) := ApiFn → Except String α × List ApiReq

instance : Monad ApiM where
  pure a := fun _ => (Except.ok a, [])
  bind x f := fun api =>
    match x api with
    | (Except.ok a, t) =>
      match f a api with
      | (r, t2) => (r, t ++ t2)
    | (Except.error e, t) => (Except.error e, t)

/-- `await this.apiClient.get(...)`. -/
def apiGet (req : ApiReq) : ApiM Json := fun api => (api req, [req])

/-- `throw new Error(msg)` inside a `try` block. -/
def jsThrow {α : Type} (m : String) : ApiM α := fun _ => (Except.error m, [])

/-- A sequential `for (const x of xs) { ... results.push(r) }` loop: run the
body on each element in order and collect the pushed records in order. -/
def forPush {α : Type} (f : α → ApiM Json) : List α → ApiM (List Json)
  | [] => pure []
  | x :: xs => do
    let r ← f x
    let rs ← forPush f xs
    pure (r :: rs)

/-- An inner `try { ... } catch (e) { ... }` block. -/
def jsTry {α : Type} (x : ApiM α) (h : String → ApiM α) : ApiM α := fun api =>
  match x api with
  | (Except.ok a, t) => (Except.ok a, t)
  | (Except.error e, t) =>
    match h e api with
    | (r, t2) => (r, t ++ t2)

/-- MCP error codes used by the server. -/
inductive ErrCode where
  | invalidParams
  | internalError
  | methodNotFound
deriving Repr, DecidableEq

/-- A thrown `McpError` (code plus message). -/
structure McpErr where
  code : ErrCode
  message : String
deriving Repr, DecidableEq

/-- One item of a tool result's `content` array.  `json j` stands for a text
item whose text is `JSON.stringify(j, null, 2)` (the serialisation itself is
not modelled); `text s` is a literal text item. -/
inductive ContentItem where
  | text (s : String)
  | json (j : Json)
deriving Repr

/-- A handler outcome: either content or a thrown `McpError`, along with the
trace of upstream requests issued. -/
def HRes := Except McpErr (List ContentItem) × List ApiReq

/-- The outer `try { ... } catch (error) { throw new McpError(InternalError,
pre + error.message) }` wrapper every handler uses. -/
def runTry (pre : String) (body : ApiM (List ContentItem)) (api : ApiFn) : HRes :=
  match body api with
  | (Except.ok out, t) => (Except.ok out, t)
  | (Except.error m, t) =>
    (Except.error { code := ErrCode.internalError, message := pre ++ m }, t)

/-- `throw new McpError(ErrorCode.InvalidParams, msg)` before any I/O. -/
def invalid (msg : String) : HRes :=
  (Except.error { code := ErrCode.invalidParams, message := msg }, [])

/-- Is an `Except` an `ok`? -/
def exOk {ε α : Type} : Except ε α → Bool
  | Except.ok _ => true
  | Except.error _ => false

/-! ## Tool arguments

The JS handlers receive `args: any`.  We model the well-typed shapes: a
record of every argument field any tool reads, each optional (`none` models
an absent field / `undefined`). -/

structure Args where
  query : Option String := none
  limit : Option ℚ := none
  offset : Option ℚ := none
  chembl_id : Option String := none
  smiles : Option String := none
  similarity : Option ℚ := none
  inchi : Option String := none
  target_chembl_id : Option String := none
  assay_chembl_id : Option String := none
  molecule_chembl_id : Option String := none
  activity_type : Option String := none
  uniprot_id : Option String := none
  molecule_chembl_ids : Option (List String) := none
  chembl_ids : Option (List String) := none
  indication : Option String := none
  min_value : Option ℚ := none
  max_value : Option ℚ := none
  units : Option String := none
  min_mw : Option ℚ := none
  max_mw : Option ℚ := none
  min_logp : Option ℚ := none
  max_logp : Option ℚ := none
  max_hbd : Option ℚ := none
  max_hba : Option ℚ := none
  format : Option String := none
deriving Repr, DecidableEq

/-- A `limit` field is valid when absent or a number in `(0, 1000]`
(`typeof args.limit === 'number' && args.limit > 0 && args.limit <= 1000`). -/
def limitOk (l : Option ℚ) : Bool :=
  match l with
  | none => true
  | some v => decide (0 < v) && decide (v ≤ 1000)

/-- `isValidCompoundSearchArgs` (part_001:76-87). -/
def isValidCompoundSearchArgs (a : Args) : Bool :=
  (match a.query with
   | some q => decide (q.length > 0)
   | none => false) &&
  limitOk a.limit &&
  (match a.offset with
   | none => true
   | some o => decide (0 ≤ o))

/-- `isValidChemblIdArgs` (part_001:89-98). -/
def isValidChemblIdArgs (a : Args) : Bool :=
  match a.chembl_id with
  | some s => decide (s.length > 0)
  | none => false

/-- `isValidSimilaritySearchArgs` (part_001:100-112). -/
def isValidSimilaritySearchArgs (a : Args) : Bool :=
  (match a.smiles with
   | some s => decide (s.length > 0)
   | none => false) &&
  (match a.similarity with
   | none => true
   | some s => decide (0 ≤ s) && decide (s ≤ 1)) &&
  limitOk a.limit

/-- `isValidSubstructureSearchArgs` (part_001:114-124). -/
def isValidSubstructureSearchArgs (a : Args) : Bool :=
  (match a.smiles with
   | some s => decide (s.length > 0)
   | none => false) &&
  limitOk a.limit

/-- `isValidActivitySearchArgs` (part_001:126-139): the per-field type
checks, the limit bound, and — crucially — the requirement that at least one
of the three identifier fields is present. -/
def isValidActivitySearchArgs (a : Args) : Bool :=
  limitOk a.limit &&
  (a.target_chembl_id.isSome || a.assay_chembl_id.isSome || a.molecule_chembl_id.isSome)

/-- `isValidPropertyFilterArgs` (part_001:141-163). -/
def isValidPropertyFilterArgs (a : Args) : Bool :=
  (match a.min_mw with | none => true | some v => decide (0 ≤ v)) &&
  (match a.max_mw with | none => true | some v => decide (0 ≤ v)) &&
  (match a.max_hbd with | none => true | some v => decide (0 ≤ v)) &&
  (match a.max_hba with | none => true | some v => decide (0 ≤ v)) &&
  limitOk a.limit

/-- `isValidBatchArgs` (part_001:165-176): 1-50 non-empty identifiers. -/
def isValidBatchArgs (a : Args) : Bool :=
  match a.chembl_ids with
  | none => false
  | some ids =>
    decide (0 < ids.length) && decide (ids.length ≤ 50) &&
    ids.all (fun i => decide (i.length > 0))

/-- `isValidInchiSearchArgs` (part_001:178-187). -/
def isValidInchiSearchArgs (a : Args) : Bool :=
  (match a.inchi with
   | some s => decide (s.length > 0)
   | none => false) &&
  limitOk a.limit

/-! ## String helpers (JS built-ins used by the handlers) -/

/-- JS `String.prototype.startsWith` (character-list based). -/
def strStarts (s p : String) : Bool :=
  s.toList.take p.toList.length == p.toList

/-- JS `String.prototype.toLowerCase` (character-wise). -/
def strToLower (s : String) : String :=
  String.mk (s.toList.map Char.toLower)

/-- JS `String.prototype.includes` (character-list based). -/
def strIncludes (s sub : String) : Bool :=
  (List.range (s.toList.length + 1)).any
    (fun i => (s.toList.drop i).take sub.toList.length == sub.toList)

/-- `Math.round`: round half toward positive infinity. -/
def jsRound (x : ℚ) : ℤ := Int.floor (x + 1/2)

/-- The characters `encodeURIComponent` leaves unescaped. -/
def isUnreservedUri (c : Char) : Bool :=
  (decide ('A' ≤ c) && decide (c ≤ 'Z')) ||
  (decide ('a' ≤ c) && decide (c ≤ 'z')) ||
  (decide ('0' ≤ c) && decide (c ≤ '9')) ||
  ['-', '_', '.', '!', '~', '*', Char.ofNat 39, '(', ')'].contains c

/-- Upper-case hex digit for a value below 16. -/
def hexDigit (n : ℕ) : Char :=
  if n < 10 then Char.ofNat (48 + n) else Char.ofNat (55 + n)

/-- The UTF-8 bytes of one character, from its code point. -/
def utf8Bytes (c : Char) : List ℕ :=
  let n := c.toNat
  if n < 128 then [n]
  else if n < 2048 then [192 + n / 64, 128 + n % 64]
  else if n < 65536 then [224 + n / 4096, 128 + (n / 64) % 64, 128 + n % 64]
  else [240 + n / 262144, 128 + (n / 4096) % 64, 128 + (n / 64) % 64, 128 + n % 64]

/-- Percent-encode one byte. -/
def pctByte (b : ℕ) : String :=
  String.mk ['%', hexDigit (b / 16), hexDigit (b % 16)]

/-- Percent-encode one character (UTF-8 bytes) unless it is unreserved. -/
def encodeChar (c : Char) : String :=
  if isUnreservedUri c then String.singleton c
  else String.join ((utf8Bytes c).map pctByte)

/-- JS `encodeURIComponent`. -/
def encodeURIComponent (s : String) : String :=
  String.join (s.toList.map encodeChar)

/-- `Math.round((args.similarity || 0.7) * 100)` (part_001:948): the
similarity fraction is defaulted *by JS truthiness* — `0` is falsy and falls
back to `0.7` — then scaled to an integer percentage. -/
def similarityPercent (s : Option ℚ) : ℤ :=
  jsRound (jsOrQ s (7/10) * 100)

/-! ## Handlers: core chemical search and retrieval -/

/-- `handleSearchCompounds` (part_001:837-866). -/
def handleSearchCompounds (a : Args) (api : ApiFn) : HRes :=
  if !(isValidCompoundSearchArgs a) then invalid ("Invalid compound search arguments")
  else
    runTry ("Failed to search compounds: ") (do
      let resp ← apiGet { path := "/molecule/search.json",
                          params := [("q", PV.str (a.query.getD "")),
                                     ("limit", PV.num (jsOrQ a.limit 25)),
                                     ("offset", PV.num (jsOrQ a.offset 0))] }
      pure [ContentItem.json resp]) api

/-- `handleGetCompoundInfo` (part_001:868-888). -/
def handleGetCompoundInfo (a : Args) (api : ApiFn) : HRes :=
  if !(isValidChemblIdArgs a) then invalid ("Invalid ChEMBL ID arguments")
  else
    runTry ("Failed to get compound info: ") (do
      let resp ← apiGet { path := "/molecule/" ++ a.chembl_id.getD "" ++ ".json" }
      pure [ContentItem.json resp]) api

/-- The filter key `handleSearchByInchi` routes an input to
(part_001:900-904): full-InChI strings (`"InChI="` prefix) go to the
standard-InChI filter, everything else to the InChI-key filter. -/
def inchiFilterKey (inchi : String) : String :=
  if strStarts inchi ("InChI=") then "molecule_structures__standard_inchi"
  else "molecule_structures__standard_inchi_key"

/-- `handleSearchByInchi` (part_001:891-914). -/
def handleSearchByInchi (a : Args) (api : ApiFn) : HRes :=
  if !(isValidInchiSearchArgs a) then invalid ("Invalid arguments for InChI search.")
  else
    let inchi := a.inchi.getD ""
    runTry ("ChEMBL API error: ") (do
      let resp ← apiGet { path := "/molecule.json",
                          params := [("limit", PV.num (jsOrQ a.limit 25)),
                                     (inchiFilterKey inchi, PV.str inchi)] }
      pure [ContentItem.json resp]) api

/-- `handleGetCompoundStructure` (part_001:916-940). -/
def handleGetCompoundStructure (a : Args) (api : ApiFn) : HRes :=
  if a.chembl_id.isNone then invalid ("Invalid arguments")
  else
    runTry ("Failed to get structure: ") (do
      let compound ← apiGet { path := "/molecule/" ++ a.chembl_id.getD "" ++ ".json" }
      pure [ContentItem.json (Json.obj
        [("chembl_id", compound.getD ("molecule_chembl_id") Json.null),
         ("structures", compound.getD ("molecule_structures") (Json.obj [])),
         ("requested_format", Json.str (jsOrStr a.format "smiles"))])]) api

/-- `handleSearchSimilarCompounds` (part_001:942-971): converts the
similarity fraction to an integer percentage path segment. -/
def handleSearchSimilarCompounds (a : Args) (api : ApiFn) : HRes :=
  if !(isValidSimilaritySearchArgs a) then invalid ("Invalid similarity search arguments")
  else
    let similarity := similarityPercent a.similarity
    let smiles := encodeURIComponent (a.smiles.getD "")
    runTry ("Failed to search similar compounds: ") (do
      let resp ← apiGet { path := "/similarity/" ++ smiles ++ "/" ++ toString similarity ++ ".json",
                          params := [("limit", PV.num (jsOrQ a.limit 25))] }
      pure [ContentItem.json resp]) api

/-! ## Handlers: target analysis -/

/-- `handleSearchTargets` (part_001:973-982) — note: no argument validation. -/
def handleSearchTargets (a : Args) (api : ApiFn) : HRes :=
  runTry ("Failed to search targets: ") (do
    let resp ← apiGet { path := "/target/search.json",
                        params := [("q", PV.str (a.query.getD "")),
                                   ("limit", PV.num (jsOrQ a.limit 25))] }
    pure [ContentItem.json resp]) api

/-- `handleGetTargetInfo` (part_001:984-995). -/
def handleGetTargetInfo (a : Args) (api : ApiFn) : HRes :=
  if !(isValidChemblIdArgs a) then invalid ("Invalid arguments")
  else
    runTry ("Failed to get target info: ") (do
      let resp ← apiGet { path := "/target/" ++ a.chembl_id.getD "" ++ ".json" }
      pure [ContentItem.json resp]) api

/-- `handleGetTargetCompounds` (part_001:998-1029). -/
def handleGetTargetCompounds (a : Args) (api : ApiFn) : HRes :=
  if a.target_chembl_id.isNone then
    invalid ("Invalid arguments: target_chembl_id is required")
  else
    runTry ("Failed to get target compounds: ") (do
      let ps := [("target_chembl_id", PV.str (a.target_chembl_id.getD "")),
                 ("limit", PV.num (jsOrQ a.limit 25))]
      let ps := if jsTruthyStr a.activity_type then
                  ps ++ [("standard_type", PV.str (a.activity_type.getD ""))]
                else ps
      let resp ← apiGet { path := "/activity.json", params := ps }
      pure [ContentItem.json resp]) api

/-- `handleSearchByUniprot` (part_001:1031-1083). -/
def handleSearchByUniprot (a : Args) (api : ApiFn) : HRes :=
  if a.uniprot_id.isNone then
    invalid ("Invalid arguments: uniprot_id is required")
  else
    let uid := a.uniprot_id.getD ""
    runTry ("Failed to search by UniProt ID: ") (do
      let resp ← apiGet { path := "/target.json",
                          params := [("target_components__accession", PV.str uid),
                                     ("limit", PV.num (jsOrQ a.limit 25))] }
      let targets := resp.getArr ("targets")
      let formattedTargets := targets.map (fun target => Json.obj
        [("target_chembl_id", target.getD ("target_chembl_id") Json.null),
         ("pref_name", target.getD ("pref_name") Json.null),
         ("target_type", target.getD ("target_type") Json.null),
         ("organism", target.getD ("organism") Json.null),
         ("species_group_flag", target.getD ("species_group_flag") Json.null),
         ("target_components", Json.arr ((target.getArr ("target_components")).filter
           (fun comp => (comp.getStr? ("accession") == some uid) ||
             (match comp.getStr? ("accession") with
              | some acc => strIncludes acc uid
              | none => false)))),
         ("cross_references", target.getD ("cross_references") (Json.arr []))])
      let totalResults := jsOrJ ((resp.getD ("page_meta") Json.null).get? ("total_count"))
        (Json.num targets.length)
      pure [ContentItem.json (Json.obj
        [("query", Json.obj [("uniprot_id", Json.str uid),
                             ("search_type", Json.str "uniprot_accession")]),
         ("total_results", totalResults),
         ("results_returned", Json.num formattedTargets.length),
         ("targets", Json.arr formattedTargets)])]) api

/-- Is a character in `[A-Z0-9]` (the accession regex of
`handleGetTargetPathways`)? -/
def isUpperAlnum (c : Char) : Bool :=
  (decide ('A' ≤ c) && decide (c ≤ 'Z')) || (decide ('0' ≤ c) && decide (c ≤ '9'))

/-- `comp.accession && comp.accession.match(/^[A-Z0-9]+$/)` (part_001:1097). -/
def accessionOk (acc : Option String) : Bool :=
  match acc with
  | none => false
  | some s => decide (s ≠ "") && s.toList.all isUpperAlnum

/-- Does a cross-reference source name mention a pathway database
(part_001:1103-1110)? -/
def pathwayXrefOk (ref : Json) : Bool :=
  match ref.getStr? ("xref_src_db") with
  | none => false
  | some db =>
    decide (db ≠ "") &&
    (strIncludes (strToLower db) ("reactome") || strIncludes (strToLower db) ("kegg") ||
     strIncludes (strToLower db) ("pathway") || strIncludes (strToLower db) ("biocyc"))

/-- `handleGetTargetPathways` (part_001:1085-1171).  The mechanism sub-fetch
is wrapped in its own `try`/`catch` and degrades to an empty list with a
note — the explicitly best-effort pathway-mechanism lookup. -/
def handleGetTargetPathways (a : Args) (api : ApiFn) : HRes :=
  if a.target_chembl_id.isNone then
    invalid ("Invalid arguments: target_chembl_id is required")
  else
    let tid := a.target_chembl_id.getD ""
    runTry ("Failed to get target pathways: ") (do
      let target ← apiGet { path := "/target/" ++ tid ++ ".json" }
      let uniprotAccessions := ((target.getArr ("target_components")).filter
        (fun comp => accessionOk (comp.getStr? ("accession")))).filterMap
        (fun comp => comp.getStr? ("accession"))
      let crossRefs := (target.getArr ("cross_references")).filter pathwayXrefOk
      let mechPart ← jsTry (do
          let mresp ← apiGet { path := "/mechanism.json",
                               params := [("target_chembl_id", PV.str tid),
                                          ("limit", PV.num 50)] }
          pure (Json.arr ((mresp.getArr ("mechanisms")).map (fun mech => Json.obj
            [("mechanism_id", mech.getD ("mec_id") Json.null),
             ("molecule_chembl_id", mech.getD ("molecule_chembl_id") Json.null),
             ("mechanism_of_action", mech.getD ("mechanism_of_action") Json.null),
             ("action_type", mech.getD ("action_type") Json.null),
             ("mechanism_comment", mech.getD ("mechanism_comment") Json.null),
             ("selectivity_comment", mech.getD ("selectivity_comment") Json.null)])), false))
        (fun _ => pure (Json.arr [], true))
      let pathwayInfo := Json.obj
        ([("cross_references", Json.arr crossRefs),
          ("go_classifications", target.getD ("go_classifications") (Json.arr [])),
          ("mechanisms", mechPart.1)] ++
         (if mechPart.2 then
            [("mechanism_note", Json.str "No mechanism data available")]
          else []))
      let suggested := match uniprotAccessions.head? with
        | some acc => Json.obj
            [("reactome", Json.str ("https://reactome.org/content/query?q=" ++ acc)),
             ("kegg", Json.str
               ("https://www.genome.jp/kegg-bin/search_pathway_text?map=map01100&keyword=" ++ acc)),
             ("wikipathways", Json.str
               ("https://www.wikipathways.org/index.php/Special:SearchPathways?query=" ++ acc))]
        | none => Json.null
      pure [ContentItem.json (Json.obj
        [("target_chembl_id", target.getD ("target_chembl_id") Json.null),
         ("pref_name", target.getD ("pref_name") Json.null),
         ("target_type", target.getD ("target_type") Json.null),
         ("organism", target.getD ("organism") Json.null),
         ("uniprot_accessions", Json.arr (uniprotAccessions.map Json.str)),
         ("pathway_information", pathwayInfo),
         ("data_note", Json.str ("ChEMBL pathway data is limited. For comprehensive pathway information, cross-reference with Reactome, KEGG, or other pathway databases using the provided UniProt accessions.")),
         ("suggested_external_queries", suggested)])]) api

/-! ## Handlers: bioactivity and assay data -/

/-- `handleSearchActivities` (part_001:1173-1185).  NOTE: unlike every other
validated tool, this handler never invokes `isValidActivitySearchArgs`; it
goes straight to the upstream call. -/
def handleSearchActivities (a : Args) (api : ApiFn) : HRes :=
  runTry ("Failed to search activities: ") (do
    let ps := [("limit", PV.num (jsOrQ a.limit 25))]
    let ps := if jsTruthyStr a.target_chembl_id then
                ps ++ [("target_chembl_id", PV.str (a.target_chembl_id.getD ""))]
              else ps
    let ps := if jsTruthyStr a.molecule_chembl_id then
                ps ++ [("molecule_chembl_id", PV.str (a.molecule_chembl_id.getD ""))]
              else ps
    let ps := if jsTruthyStr a.activity_type then
                ps ++ [("standard_type", PV.str (a.activity_type.getD ""))]
              else ps
    let resp ← apiGet { path := "/activity.json", params := ps }
    pure [ContentItem.json resp]) api

/-- `handleGetAssayInfo` (part_001:1187-1198). -/
def handleGetAssayInfo (a : Args) (api : ApiFn) : HRes :=
  if !(isValidChemblIdArgs a) then invalid ("Invalid arguments")
  else
    runTry ("Failed to get assay info: ") (do
      let resp ← apiGet { path := "/assay/" ++ a.chembl_id.getD "" ++ ".json" }
      pure [ContentItem.json resp]) api

/-- The cleaned-up activity record of `handleSearchByActivityType`
(part_001:1226-1238). -/
def cleanedActivityLong (activity : Json) : Json :=
  Json.obj
    [("activity_id", activity.getD ("activity_id") Json.null),
     ("molecule_chembl_id", activity.getD ("molecule_chembl_id") Json.null),
     ("target_chembl_id", activity.getD ("target_chembl_id") Json.null),
     ("assay_chembl_id", activity.getD ("assay_chembl_id") Json.null),
     ("standard_type", activity.getD ("standard_type") Json.null),
     ("standard_value", activity.getD ("standard_value") Json.null),
     ("standard_units", activity.getD ("standard_units") Json.null),
     ("pchembl_value", activity.getD ("pchembl_value") Json.null),
     ("assay_description", Json.str
       (jsOrStr ((activity.getStr? ("assay_description")).map (fun s => s.take 200)) "")),
     ("document_journal", activity.getD ("document_journal") Json.null),
     ("document_year", activity.getD ("document_year") Json.null)]

/-- `handleSearchByActivityType` (part_001:1201-1262). -/
def handleSearchByActivityType (a : Args) (api : ApiFn) : HRes :=
  if a.activity_type.isNone then
    invalid ("Invalid arguments: activity_type is required")
  else
    runTry ("Failed to search by activity type: ") (do
      let ps := [("standard_type", PV.str (a.activity_type.getD "")),
                 ("limit", PV.num (min (jsOrQ a.limit 10) 20))]
      let ps := match a.min_value with
        | some v => ps ++ [("standard_value__gte", PV.num v)]
        | none => ps
      let ps := match a.max_value with
        | some v => ps ++ [("standard_value__lte", PV.num v)]
        | none => ps
      let ps := if jsTruthyStr a.units then
                  ps ++ [("standard_units", PV.str (a.units.getD ""))]
                else ps
      let resp ← apiGet { path := "/activity.json", params := ps }
      let activities := resp.getArr ("activities")
      let cleaned := (activities.take 10).map cleanedActivityLong
      let totalCount := jsOrJ ((resp.getD ("page_meta") Json.null).get? ("total_count"))
        (Json.num activities.length)
      pure [ContentItem.json (Json.obj
        [("total_count", totalCount),
         ("returned_count", Json.num cleaned.length),
         ("activity_type", Json.str (a.activity_type.getD "")),
         ("activities", Json.arr cleaned)])]) api

/-- `handleGetDoseResponse` (part_001:1264-1297). -/
def handleGetDoseResponse (a : Args) (api : ApiFn) : HRes :=
  if a.molecule_chembl_id.isNone then
    invalid ("Invalid arguments: molecule_chembl_id is required")
  else
    runTry ("Failed to get dose response data: ") (do
      let ps := [("molecule_chembl_id", PV.str (a.molecule_chembl_id.getD "")),
                 ("limit", PV.num (jsOrQ a.limit 25))]
      let ps := if jsTruthyStr a.target_chembl_id then
                  ps ++ [("target_chembl_id", PV.str (a.target_chembl_id.getD ""))]
                else ps
      let ps := ps ++ [("standard_type__in", PV.str "IC50,EC50,Ki,Kd,GI50,LC50,LD50")]
      let resp ← apiGet { path := "/activity.json", params := ps }
      pure [ContentItem.json resp]) api

/-- The cleaned-up activity record of `handleCompareActivities`
(part_001:1325-1334). -/
def cleanedActivityShort (activity : Json) : Json :=
  Json.obj
    [("activity_id", activity.getD ("activity_id") Json.null),
     ("target_chembl_id", activity.getD ("target_chembl_id") Json.null),
     ("assay_chembl_id", activity.getD ("assay_chembl_id") Json.null),
     ("standard_type", activity.getD ("standard_type") Json.null),
     ("standard_value", activity.getD ("standard_value") Json.null),
     ("standard_units", activity.getD ("standard_units") Json.null),
     ("pchembl_value", activity.getD ("pchembl_value") Json.null),
     ("assay_description", Json.str
       (jsOrStr ((activity.getStr? ("assay_description")).map (fun s => s.take 100)) ""))]

/-- One per-compound lookup of `handleCompareActivities` (part_001:1308-1348):
its own `try`/`catch` turns an upstream failure into a `success: false`
record instead of aborting the whole comparison. -/
def compareItem (a : Args) (chemblId : String) : ApiM Json :=
  jsTry (do
      let ps := [("molecule_chembl_id", PV.str chemblId), ("limit", PV.num 10)]
      let ps := if jsTruthyStr a.target_chembl_id then
                  ps ++ [("target_chembl_id", PV.str (a.target_chembl_id.getD ""))]
                else ps
      let ps := if jsTruthyStr a.activity_type then
                  ps ++ [("standard_type", PV.str (a.activity_type.getD ""))]
                else ps
      let resp ← apiGet { path := "/activity.json", params := ps }
      let activities := resp.getArr ("activities")
      let cleaned := (activities.take 5).map cleanedActivityShort
      pure (Json.obj
        [("molecule_chembl_id", Json.str chemblId),
         ("activity_count", Json.num activities.length),
         ("top_activities", Json.arr cleaned),
         ("success", Json.bool true)]))
    (fun e => pure (Json.obj
      [("molecule_chembl_id", Json.str chemblId),
       ("error", Json.str e),
       ("success", Json.bool false)]))

/-- `handleCompareActivities` (part_001:1299-1372): compares at most the
first five supplied compounds, each looked up best-effort. -/
def handleCompareActivities (a : Args) (api : ApiFn) : HRes :=
  match a.molecule_chembl_ids with
  | none =>
    invalid ("Invalid arguments: molecule_chembl_ids array with at least 2 compounds is required")
  | some ids =>
    if ids.length < 2 then
      invalid ("Invalid arguments: molecule_chembl_ids array with at least 2 compounds is required")
    else
      runTry ("Failed to compare activities: ") (do
        let results ← forPush (compareItem a) (ids.take 5)
        pure [ContentItem.json (Json.obj
          [("comparison_type", Json.str (jsOrStr a.activity_type "all_activities")),
           ("target_filter", Json.str (jsOrStr a.target_chembl_id "all_targets")),
           ("compounds_compared", Json.num results.length),
           ("comparison_results", Json.arr results)])]) api

/-! ## Handlers: drug development and clinical data -/

/-- `handleSearchDrugs` (part_001:1374-1392). -/
def handleSearchDrugs (a : Args) (api : ApiFn) : HRes :=
  if !(isValidCompoundSearchArgs a) then invalid ("Invalid arguments for drug search.")
  else
    runTry ("ChEMBL API error: ") (do
      let resp ← apiGet { path := "/drug.json",
                          params := [("pref_name__icontains", PV.str (a.query.getD "")),
                                     ("limit", PV.num (jsOrQ a.limit 10)),
                                     ("offset", PV.num (jsOrQ a.offset 0))] }
      pure [ContentItem.json resp]) api

/-- `handleGetDrugInfo` (part_001:1394-1399): validates, then delegates to
`handleGetCompoundInfo`. -/
def handleGetDrugInfo (a : Args) (api : ApiFn) : HRes :=
  if !(isValidChemblIdArgs a) then invalid ("Invalid arguments for getting drug info.")
  else handleGetCompoundInfo a api

/-- `handleSearchDrugIndications` (part_001:1401-1419). -/
def handleSearchDrugIndications (a : Args) (api : ApiFn) : HRes :=
  if (match a.indication with
      | some s => decide (s.length = 0)
      | none => true) then
    invalid ("Invalid arguments for drug indication search.")
  else
    runTry ("ChEMBL API error: ") (do
      let resp ← apiGet { path := "/drug_indication.json",
                          params := [("efo_term__icontains", PV.str (a.indication.getD "")),
                                     ("limit", PV.num (jsOrQ a.limit 10)),
                                     ("offset", PV.num (jsOrQ a.offset 0))] }
      pure [ContentItem.json resp]) api

/-- `handleGetMechanismOfAction` (part_001:1421-1448). -/
def handleGetMechanismOfAction (a : Args) (api : ApiFn) : HRes :=
  if a.chembl_id.isNone then
    invalid ("Invalid arguments: chembl_id is required")
  else
    runTry ("Failed to get mechanism of action: ") (do
      let resp ← apiGet { path := "/mechanism.json",
                          params := [("molecule_chembl_id", PV.str (a.chembl_id.getD "")),
                                     ("limit", PV.num 25)] }
      pure [ContentItem.json resp]) api

/-! ## Handlers: chemical property analysis -/

/-- Optional number to JSON (an absent field serialises like `null` here). -/
def optNumJson (x : Option ℚ) : Json :=
  match x with
  | some q => Json.num q
  | none => Json.null

/-- Optional string to JSON. -/
def optStrJson (x : Option String) : Json :=
  match x with
  | some s => Json.str s
  | none => Json.null

/-- Optional-chaining two-level field access `x.k1?.k2` (missing gives
`undefined`, modelled `null`). -/
def Json.getPath2 (j : Json) (k1 k2 : String) : Json :=
  ((j.get? k1).bind (fun x => x.get? k2)).getD Json.null

/-- `handleAnalyzeAdmetProperties` (part_001:1450-1497). -/
def handleAnalyzeAdmetProperties (a : Args) (api : ApiFn) : HRes :=
  if a.chembl_id.isNone then
    invalid ("Invalid arguments: chembl_id is required")
  else
    runTry ("Failed to analyze ADMET properties: ") (do
      let compound ← apiGet { path := "/molecule/" ++ a.chembl_id.getD "" ++ ".json" }
      pure [ContentItem.json (Json.obj
        [("chembl_id", compound.getD ("molecule_chembl_id") Json.null),
         ("pref_name", compound.getD ("pref_name") Json.null),
         ("molecular_properties", compound.getD ("molecule_properties") Json.null),
         ("admet_assessment", Json.obj
           [("absorption", Json.obj
             [("molecular_weight", compound.getPath2 ("molecule_properties") ("molecular_weight")),
              ("lipophilicity_alogp", compound.getPath2 ("molecule_properties") ("alogp")),
              ("polar_surface_area", compound.getPath2 ("molecule_properties") ("psa")),
              ("hbd_count", compound.getPath2 ("molecule_properties") ("hbd")),
              ("hba_count", compound.getPath2 ("molecule_properties") ("hba")),
              ("rotatable_bonds", compound.getPath2 ("molecule_properties") ("rtb"))]),
            ("drug_likeness", Json.obj
             [("lipinski_violations", compound.getPath2 ("molecule_properties") ("num_ro5_violations")),
              ("ro3_pass", compound.getPath2 ("molecule_properties") ("ro3_pass"))]),
            ("structural_alerts", jsOrJ (compound.get? ("compound_structural_alerts")) (Json.arr []))]),
         ("atc_classifications", jsOrJ (compound.get? ("atc_classifications")) (Json.arr []))])]) api

/-- The compound-fetch prologue shared by `handleCalculateDescriptors`,
`handlePredictSolubility` and `handleAssessDrugLikeness` (part_001:1504-1523):
fetch by ChEMBL id when `args.chembl_id` is truthy, otherwise search by
canonical SMILES and take the first hit, throwing when there is none. -/
def fetchCompound (a : Args) : ApiM Json := do
  if jsTruthyStr a.chembl_id then
    apiGet { path := "/molecule/" ++ a.chembl_id.getD "" ++ ".json" }
  else
    let searchResponse ← apiGet
      { path := "/molecule.json",
        params := [("molecule_structures__canonical_smiles", PV.str (a.smiles.getD "")),
                   ("limit", PV.num 1)] }
    match (searchResponse.getArr ("molecules")).head? with
    | some m => pure m
    | none => jsThrow ("Compound not found for the provided SMILES")

/-- `handleCalculateDescriptors` (part_001:1499-1611): derived descriptor
report whose `drug_likeness_metrics.bioavailability_score` applies
`calculateBioavailabilityScore`. -/
def handleCalculateDescriptors (a : Args) (api : ApiFn) : HRes :=
  if a.chembl_id.isNone && a.smiles.isNone then
    invalid ("Invalid arguments: chembl_id or smiles is required")
  else
    runTry ("Failed to calculate descriptors: ") (do
      let compound ← fetchCompound a
      let propsJ := compound.getD ("molecule_properties") (Json.obj [])
      let props := MolProps.ofJson propsJ
      let structures := compound.getD ("molecule_structures") (Json.obj [])
      pure [ContentItem.json (Json.obj
        [("chembl_id", compound.getD ("molecule_chembl_id") Json.null),
         ("pref_name", compound.getD ("pref_name") Json.null),
         ("smiles", structures.getD ("canonical_smiles") Json.null),
         ("inchi", structures.getD ("standard_inchi") Json.null),
         ("inchi_key", structures.getD ("standard_inchi_key") Json.null),
         ("molecular_properties", Json.obj
           [("molecular_weight", optNumJson props.molecular_weight),
            ("exact_mass", optNumJson props.full_mwt),
            ("heavy_atoms", optNumJson props.heavy_atoms),
            ("num_atoms", if jsTruthyNum props.heavy_atoms then
                Json.num (props.heavy_atoms.getD 0 + jsOrQ props.hbd 0)
              else Json.null)]),
         ("lipophilicity", Json.obj
           [("alogp", optNumJson props.alogp),
            ("clogp", optNumJson props.cx_logp),
            ("logd", optNumJson props.cx_logd)]),
         ("hydrogen_bonding", Json.obj
           [("hbd", optNumJson props.hbd),
            ("hba", optNumJson props.hba),
            ("total_hb_sites", Json.num (jsOrQ props.hbd 0 + jsOrQ props.hba 0))]),
         ("topological", Json.obj
           [("rotatable_bonds", optNumJson props.rtb),
            ("aromatic_rings", optNumJson props.aromatic_rings),
            ("rings", optNumJson props.rings),
            ("aliphatic_rings", if jsTruthyNum props.rings then
                Json.num (props.rings.getD 0 - jsOrQ props.aromatic_rings 0)
              else Json.null)]),
         ("surface_properties", Json.obj
           [("polar_surface_area", optNumJson props.psa),
            ("molecular_surface_area", optNumJson props.molecular_surface_area)]),
         ("drug_likeness_metrics", Json.obj
           [("lipinski_violations", optNumJson props.num_ro5_violations),
            ("ro3_pass", optStrJson props.ro3_pass),
            ("bioavailability_score", Json.num (calculateBioavailabilityScore props))]),
         ("calculated_properties", Json.obj
           [("flexibility_index", if jsTruthyNum props.rtb then
                Json.num (props.rtb.getD 0 / jsOrQ props.heavy_atoms 1)
              else Json.null),
            ("complexity_index",
              if jsTruthyNum props.rings && jsTruthyNum props.aromatic_rings then
                Json.num ((props.rings.getD 0 * 2 + props.aromatic_rings.getD 0) /
                  jsOrQ props.heavy_atoms 1)
              else Json.null),
            ("hydrogen_bond_ratio",
              if jsTruthyNum props.hbd && jsTruthyNum props.hba then
                Json.num (props.hbd.getD 0 / (props.hbd.getD 0 + props.hba.getD 0))
              else Json.null)]),
         ("framework_analysis", Json.obj
           [("saturation_ratio",
              if jsTruthyNum props.aromatic_rings && jsTruthyNum props.rings then
                Json.num ((props.rings.getD 0 - props.aromatic_rings.getD 0) /
                  props.rings.getD 0)
              else Json.null),
            ("ring_density",
              if jsTruthyNum props.rings && jsTruthyNum props.heavy_atoms then
                Json.num (props.rings.getD 0 / props.heavy_atoms.getD 0)
              else Json.null)])])]) api

/-- The averaged predicted logS of `calculateSolubilityPredictions`
(part_001:1724-1743). -/
def predictedLogS (props : MolProps) : ℚ :=
  let logP := jsOrQ props.alogp 0
  let mw := jsOrQ props.molecular_weight 0
  let hbd := jsOrQ props.hbd 0
  let rb := jsOrQ props.rtb 0
  let logS_yalkowsky := 1/2 - 4/5 - logP
  let logS_ali := 4/25 - 63/100 * logP + 9/1000 * hbd
  let logS_delaney := 4/25 - 63/100 * logP - 62/10000 * mw + 66/1000 * rb - 37/50
  (logS_yalkowsky + logS_ali + logS_delaney) / 3

/-- `calculateSolubilityPredictions` (part_001:1724-1762).  The two unit
conversions `Math.pow(10, logS)` and `Math.pow(10, logS) * mw` are
transcendental and not representable over ℚ; those two fields are modelled
as `null`. -/
def calculateSolubilityPredictions (props : MolProps) : Json :=
  let logP := jsOrQ props.alogp 0
  let mw := jsOrQ props.molecular_weight 0
  let hbd := jsOrQ props.hbd 0
  let rb := jsOrQ props.rtb 0
  let logS_yalkowsky := 1/2 - 4/5 - logP
  let logS_ali := 4/25 - 63/100 * logP + 9/1000 * hbd
  let logS_delaney := 4/25 - 63/100 * logP - 62/10000 * mw + 66/1000 * rb - 37/50
  let logS_average := (logS_yalkowsky + logS_ali + logS_delaney) / 3
  Json.obj
    [("log_solubility", Json.obj
       [("yalkowsky_model", Json.num logS_yalkowsky),
        ("ali_model", Json.num logS_ali),
        ("delaney_model", Json.num logS_delaney),
        ("average", Json.num logS_average)]),
     ("predicted_solubility", Json.obj
       [("log_s", Json.num logS_average),
        ("molar_solubility", Json.null),
        ("solubility_mg_ml", Json.null),
        ("solubility_class", Json.str (classifySolubility logS_average))])]

/-- `assessLipophilicityEffect` (part_001:1772-1778). -/
def assessLipophilicityEffect (alogp : Option ℚ) : String :=
  if !(jsTruthyNum alogp) then "Unknown"
  else
    let v := alogp.getD 0
    if v < 0 then "Hydrophilic - favors solubility"
    else if v < 2 then "Moderate lipophilicity - balanced solubility"
    else if v < 4 then "Lipophilic - reduces aqueous solubility"
    else "Highly lipophilic - poor aqueous solubility"

/-- `assessHydrogenBondingEffect` (part_001:1780-1786). -/
def assessHydrogenBondingEffect (hbd hba : Option ℚ) : String :=
  let total := jsOrQ hbd 0 + jsOrQ hba 0
  if total = 0 then "No hydrogen bonding - poor solubility"
  else if total < 3 then "Limited hydrogen bonding - moderate effect"
  else if total < 6 then "Good hydrogen bonding - favors solubility"
  else "Extensive hydrogen bonding - high solubility potential"

/-- `assessMolecularSizeEffect` (part_001:1788-1794). -/
def assessMolecularSizeEffect (mw : Option ℚ) : String :=
  if !(jsTruthyNum mw) then "Unknown"
  else
    let v := mw.getD 0
    if v < 200 then "Small molecule - generally more soluble"
    else if v < 400 then "Medium size - moderate size effect"
    else if v < 600 then "Large molecule - size may limit solubility"
    else "Very large molecule - significant size hindrance"

/-- `assessFlexibilityEffect` (part_001:1796-1802). -/
def assessFlexibilityEffect (rtb heavy_atoms : Option ℚ) : String :=
  if !(jsTruthyNum rtb) || !(jsTruthyNum heavy_atoms) then "Unknown"
  else
    let flexibility := rtb.getD 0 / heavy_atoms.getD 0
    if flexibility < 1/10 then "Rigid structure - may reduce solubility"
    else if flexibility < 1/5 then "Moderate flexibility - balanced effect"
    else "Flexible structure - may enhance solubility"

/-- `getOverallSolubilityAssessment` (part_001:1804-1810). -/
def getOverallSolubilityAssessment (logS : ℚ) : String :=
  if logS > -2 then "GOOD - Expected to have adequate aqueous solubility"
  else if logS > -3 then "MODERATE - May require formulation optimization"
  else if logS > -4 then "POOR - Likely to need solubility enhancement strategies"
  else "VERY POOR - Significant solubility challenges expected"

/-- `getSolubilityRecommendations` (part_001:1812-1841). -/
def getSolubilityRecommendations (props : MolProps) (logS : ℚ) : List String :=
  let logP := jsOrQ props.alogp 0
  let recommendations : List String := []
  let recommendations := if logS < -3 then recommendations ++
      ["Consider formulation approaches: cyclodextrins, surfactants, or cocrystals",
       "Evaluate salt forms if ionizable groups are present",
       "Consider prodrug strategies to improve solubility"]
    else recommendations
  let recommendations := if logP > 3 then recommendations ++
      ["High lipophilicity detected - consider adding polar groups",
       "Evaluate hydroxyl, amine, or carboxyl substitutions"]
    else recommendations
  let recommendations := if jsOrQ props.hbd 0 + jsOrQ props.hba 0 < 3 then recommendations ++
      ["Limited hydrogen bonding - consider adding H-bond donors/acceptors"]
    else recommendations
  let recommendations := if jsGt props.molecular_weight 500 then recommendations ++
      ["High molecular weight - consider molecular size reduction"]
    else recommendations
  if recommendations.isEmpty then
    ["Solubility appears adequate for most applications"]
  else recommendations

/-- `handlePredictSolubility` (part_001:1627-1722). -/
def handlePredictSolubility (a : Args) (api : ApiFn) : HRes :=
  if a.chembl_id.isNone && a.smiles.isNone then
    invalid ("Invalid arguments: chembl_id or smiles is required")
  else
    runTry ("Failed to predict solubility: ") (do
      let compound ← fetchCompound a
      let props := MolProps.ofJson (compound.getD ("molecule_properties") (Json.obj []))
      let structures := compound.getD ("molecule_structures") (Json.obj [])
      let prediction := calculateSolubilityPredictions props
      let logS := predictedLogS props
      pure [ContentItem.json (Json.obj
        [("chembl_id", compound.getD ("molecule_chembl_id") Json.null),
         ("pref_name", compound.getD ("pref_name") Json.null),
         ("smiles", structures.getD ("canonical_smiles") Json.null),
         ("molecular_properties", Json.obj
           [("molecular_weight", optNumJson props.molecular_weight),
            ("alogp", optNumJson props.alogp),
            ("hbd", optNumJson props.hbd),
            ("hba", optNumJson props.hba),
            ("psa", optNumJson props.psa),
            ("rotatable_bonds", optNumJson props.rtb)]),
         ("solubility_predictions", Json.obj
           [("log_solubility", prediction.getD ("log_solubility") Json.null),
            ("predicted_solubility", prediction.getD ("predicted_solubility") Json.null),
            ("solubility_factors", Json.obj
              [("lipophilicity_effect", Json.str (assessLipophilicityEffect props.alogp)),
               ("hydrogen_bonding_effect", Json.str
                 (assessHydrogenBondingEffect props.hbd props.hba)),
               ("molecular_size_effect", Json.str
                 (assessMolecularSizeEffect props.molecular_weight)),
               ("flexibility_effect", Json.str
                 (assessFlexibilityEffect props.rtb props.heavy_atoms))]),
            ("overall_assessment", Json.str (getOverallSolubilityAssessment logS))]),
         ("recommendations", Json.arr
           ((getSolubilityRecommendations props logS).map Json.str)),
         ("methodology", Json.obj
           [("note", Json.str
              "Predictions based on established QSAR models and molecular descriptors"),
            ("methods_used", Json.arr
              [Json.str "Yalkowsky General Solubility Equation",
               Json.str "Lipophilicity-based estimation",
               Json.str "Hydrogen bonding contribution",
               Json.str "Molecular size correlation"]),
            ("limitations", Json.str
              "Predictions are estimates and may not account for specific molecular interactions, crystalline forms, or experimental conditions")])])]) api

/-- `handleAssessDrugLikeness` (part_001:1844-1922): builds the Lipinski
record (`lipinskiOf`), the additional PSA/RTB metrics, and the overall
drug-likeness block reusing `calculateOralBioavailabilityScore`. -/
def handleAssessDrugLikeness (a : Args) (api : ApiFn) : HRes :=
  if a.chembl_id.isNone && a.smiles.isNone then
    invalid ("Invalid arguments: chembl_id or smiles is required")
  else
    runTry ("Failed to assess drug-likeness: ") (do
      let compound ← fetchCompound a
      let props := MolProps.ofJson (compound.getD ("molecule_properties") (Json.obj []))
      let lip := lipinskiOf props
      pure [ContentItem.json (Json.obj
        [("chembl_id", compound.getD ("molecule_chembl_id") Json.null),
         ("pref_name", compound.getD ("pref_name") Json.null),
         ("smiles", compound.getPath2 ("molecule_structures") ("canonical_smiles")),
         ("lipinski_rule_of_five", Json.obj
           [("molecular_weight", optNumJson lip.molecular_weight),
            ("mw_pass", Json.bool lip.mw_pass),
            ("logp", optNumJson lip.logp),
            ("logp_pass", Json.bool lip.logp_pass),
            ("hbd", optNumJson lip.hbd),
            ("hbd_pass", Json.bool lip.hbd_pass),
            ("hba", optNumJson lip.hba),
            ("hba_pass", Json.bool lip.hba_pass),
            ("violations", Json.num lip.violations),
            ("overall_pass", Json.bool lip.overall_pass)]),
         ("additional_metrics", Json.obj
           [("polar_surface_area", optNumJson props.psa),
            ("psa_pass", Json.bool (psaPassOf props)),
            ("rotatable_bonds", optNumJson props.rtb),
            ("rtb_pass", Json.bool (rtbPassOf props)),
            ("ro3_pass", optStrJson props.ro3_pass),
            ("heavy_atoms", optNumJson props.heavy_atoms),
            ("aromatic_rings", optNumJson props.aromatic_rings)]),
         ("overall_drug_likeness", Json.obj
           [("lipinski_compliant", Json.bool lip.overall_pass),
            ("lead_like", Json.bool (props.ro3_pass == some "Y")),
            ("oral_bioavailability_score", Json.str
              (calculateOralBioavailabilityScore props))])])]) api

/-! ## Handlers: substructure search -/

/-- `analyzeQueryStructure` (part_001:2021-2047): best-effort exact-match
lookup of the query SMILES; both an upstream failure and an empty result
give the not-found record. -/
def analyzeQueryStructure (smiles : String) : ApiM Json :=
  let notFound := Json.obj
    [("found_in_chembl", Json.bool false),
     ("smiles", Json.str smiles),
     ("note", Json.str
       "Query structure not found as exact match in ChEMBL, but used for substructure search")]
  jsTry (do
      let searchResponse ← apiGet
        { path := "/molecule.json",
          params := [("molecule_structures__canonical_smiles", PV.str smiles),
                     ("limit", PV.num 1)] }
      match (searchResponse.getArr ("molecules")).head? with
      | some molecule => pure (Json.obj
          [("found_in_chembl", Json.bool true),
           ("chembl_id", molecule.getD ("molecule_chembl_id") Json.null),
           ("pref_name", molecule.getD ("pref_name") Json.null),
           ("properties", molecule.getD ("molecule_properties") Json.null)])
      | none => pure notFound)
    (fun _ => pure notFound)

/-- The formatted per-molecule record of `handleSubstructureSearch`
(part_001:1954-1974). -/
def formattedSubstructureResult (molecule : Json) : Json :=
  Json.obj
    [("molecule_chembl_id", molecule.getD ("molecule_chembl_id") Json.null),
     ("pref_name", molecule.getD ("pref_name") Json.null),
     ("molecule_type", molecule.getD ("molecule_type") Json.null),
     ("max_phase", molecule.getD ("max_phase") Json.null),
     ("structures", Json.obj
       [("canonical_smiles", molecule.getPath2 ("molecule_structures") ("canonical_smiles")),
        ("standard_inchi_key", molecule.getPath2 ("molecule_structures") ("standard_inchi_key"))]),
     ("properties", Json.obj
       [("molecular_weight", molecule.getPath2 ("molecule_properties") ("molecular_weight")),
        ("alogp", molecule.getPath2 ("molecule_properties") ("alogp")),
        ("hbd", molecule.getPath2 ("molecule_properties") ("hbd")),
        ("hba", molecule.getPath2 ("molecule_properties") ("hba")),
        ("num_ro5_violations", molecule.getPath2 ("molecule_properties") ("num_ro5_violations"))]),
     ("similarity_metrics", Json.obj
       [("contains_query_substructure", Json.bool true),
        ("tanimoto_similarity", jsOrJ (molecule.get? ("similarity")) (Json.str "N/A"))])]

/-- Count occurrences of a key in an association list (the
`acc[k] = (acc[k] || 0) + 1` reduce pattern). -/
def bumpCount (acc : List (String × ℚ)) (k : String) : List (String × ℚ) :=
  if acc.any (fun p => p.1 == k) then
    acc.map (fun p => if p.1 == k then (p.1, p.2 + 1) else p)
  else acc ++ [(k, 1)]

/-- `min`/`max`/`average` range block over a non-empty value list (JS numeric
keys and string rendering aside). -/
def rangeStats (values : List ℚ) : Json :=
  match values with
  | [] => Json.null
  | v :: vs =>
    Json.obj
      [("min", Json.num (vs.foldl min v)),
       ("max", Json.num (vs.foldl max v)),
       ("average", Json.num ((v :: vs).sum / (v :: vs).length))]

/-- `analyzeResultDiversity` (part_001:2049-2089), over the formatted
substructure results.  JS renders an absent `molecule_type` as the object key
`"undefined"`; numeric `max_phase` keys are rendered with `toString`. -/
def analyzeResultDiversity (results : List Json) : Json :=
  if results.length = 0 then
    Json.obj [("diversity_note", Json.str "No results to analyze")]
  else
    let molecularWeights := results.filterMap
      (fun r => (r.getD ("properties") Json.null).getNum? ("molecular_weight"))
    let alogpValues := results.filterMap
      (fun r => (r.getD ("properties") Json.null).getNum? ("alogp"))
    let moleculeTypes := results.foldl
      (fun acc r => bumpCount acc (jsOrStr (r.getStr? ("molecule_type")) "undefined")) []
    let maxPhases := (results.filterMap (fun r => r.getNum? ("max_phase"))).foldl
      (fun acc q => bumpCount acc (toString q)) []
    Json.obj
      [("total_compounds", Json.num results.length),
       ("molecular_weight_range", rangeStats molecularWeights),
       ("alogp_range", rangeStats alogpValues),
       ("molecule_type_distribution",
         Json.obj (moleculeTypes.map (fun p => (p.1, Json.num p.2)))),
       ("development_phase_distribution",
         Json.obj (maxPhases.map (fun p => (p.1, Json.num p.2))))]

/-- `handleSubstructureSearch` (part_001:1938-2019). -/
def handleSubstructureSearch (a : Args) (api : ApiFn) : HRes :=
  if !(isValidSubstructureSearchArgs a) then invalid ("Invalid substructure search arguments")
  else
    let smiles := encodeURIComponent (a.smiles.getD "")
    runTry ("Failed to perform substructure search: ") (do
      let resp ← apiGet { path := "/substructure/" ++ smiles ++ ".json",
                          params := [("limit", PV.num (jsOrQ a.limit 25))] }
      let molecules := resp.getArr ("molecules")
      let formattedResults := molecules.map formattedSubstructureResult
      let queryInfo ← analyzeQueryStructure (a.smiles.getD "")
      let totalResults := jsOrJ ((resp.getD ("page_meta") Json.null).get? ("total_count"))
        (Json.num molecules.length)
      pure [ContentItem.json (Json.obj
        [("query", Json.obj
           [("query_smiles", Json.str (a.smiles.getD "")),
            ("search_type", Json.str "substructure"),
            ("description", Json.str "Find compounds containing the specified substructure")]),
         ("search_results", Json.obj
           [("total_results", totalResults),
            ("results_returned", Json.num formattedResults.length),
            ("compounds", Json.arr formattedResults)]),
         ("substructure_analysis", Json.obj
           [("query_structure_info", queryInfo),
            ("result_diversity", analyzeResultDiversity formattedResults)]),
         ("usage_notes", Json.obj
           [("note", Json.str
              "Substructure search finds compounds that contain the query structure as a subunit"),
            ("applications", Json.arr
              [Json.str "Scaffold hopping",
               Json.str "Lead optimization",
               Json.str "Bioisostere identification",
               Json.str "Structure-activity relationship analysis"])])])]) api

/-! ## Handlers: batch lookup -/

/-- The per-identifier request of `handleBatchCompoundLookup`. -/
def batchReq (chemblId : String) : ApiReq :=
  { path := "/molecule/" ++ chemblId ++ ".json" }

/-- One per-identifier lookup of `handleBatchCompoundLookup`
(part_001:2098-2105): its own `try`/`catch` turns an upstream failure into a
`success: false` record instead of aborting the whole batch. -/
def batchItem (chemblId : String) : ApiM Json :=
  jsTry (do
      let resp ← apiGet (batchReq chemblId)
      pure (Json.obj
        [("chembl_id", Json.str chemblId),
         ("data", resp),
         ("success", Json.bool true)]))
    (fun e => pure (Json.obj
      [("chembl_id", Json.str chemblId),
       ("error", Json.str e),
       ("success", Json.bool false)]))

/-- The record `handleBatchCompoundLookup` pushes for one identifier: the
identifier itself, then either the upstream data (`success: true`) or the
error message (`success: false`). -/
def batchRecord (api : ApiFn) (chemblId : String) : Json :=
  match api (batchReq chemblId) with
  | Except.ok d =>
    Json.obj [("chembl_id", Json.str chemblId), ("data", d), ("success", Json.bool true)]
  | Except.error e =>
    Json.obj [("chembl_id", Json.str chemblId), ("error", Json.str e), ("success", Json.bool false)]

/-- The identifier a batch record reports. -/
def chemblIdOfRecord (j : Json) : Option String := j.getStr? ("chembl_id")

/-- `handleBatchCompoundLookup` (part_001:2091-2111): validates 1-50
identifiers, then processes only `slice(0, 10)` — the first ten — in supply
order; extra identifiers are silently ignored. -/
def handleBatchCompoundLookup (a : Args) (api : ApiFn) : HRes :=
  if !(isValidBatchArgs a) then invalid ("Invalid batch arguments")
  else
    runTry ("Batch lookup failed: ") (do
      let results ← forPush batchItem ((a.chembl_ids.getD []).take 10)
      pure [ContentItem.json (Json.obj [("batch_results", Json.arr results)])]) api

/-! ## Handlers: external references -/

/-- A cross-reference record as consumed by `organizeCrossReferences`. -/
structure XRef where
  xref_src_db : Option String := none
  xref_id : Option String := none
  xref_name : Option String := none
deriving Repr, DecidableEq

/-- Read the three cross-reference fields from a `molecule_xref` object. -/
def XRef.ofJson (j : Json) : XRef :=
  { xref_src_db := j.getStr? ("xref_src_db")
    xref_id := j.getStr? ("xref_id")
    xref_name := j.getStr? ("xref_name") }

/-- `gatherCrossReferences` (part_001:2187-2228): two best-effort fetches —
molecule cross-references, then compound records — each silently contributing
nothing on failure, merged into one list. -/
def gatherCrossReferences (chemblId : String) : ApiM (List XRef) := do
  let refs1 ← jsTry (do
      let resp ← apiGet { path := "/molecule_xref.json",
                          params := [("molecule_chembl_id", PV.str chemblId),
                                     ("limit", PV.num 100)] }
      pure ((resp.getArr ("molecule_xrefs")).map XRef.ofJson))
    (fun _ => pure [])
  let refs2 ← jsTry (do
      let resp ← apiGet { path := "/compound_record.json",
                          params := [("molecule_chembl_id", PV.str chemblId),
                                     ("limit", PV.num 50)] }
      let records := resp.getArr ("compound_records")
      pure ((records.filter (fun r => jsTruthyJson (r.getD ("src_id") Json.null))).map
        (fun r => ({ xref_src_db := some (jsOrStr (r.getStr? ("src_description")) "Source Database"),
                     xref_id := r.getStr? ("src_compound_id"),
                     xref_name := r.getStr? ("compound_name") } : XRef))))
    (fun _ => pure [])
  pure (refs1 ++ refs2)

/-- `generateReferenceUrl` (part_001:2272-2295): canonical URL for a fixed
set of known databases, `null` otherwise (table order preserved). -/
def generateReferenceUrl (database : Option String) (id : Option String) : Json :=
  if !(jsTruthyStr database) || !(jsTruthyStr id) then Json.null
  else
    let dbLower := strToLower (database.getD "")
    let i := id.getD ""
    if strIncludes dbLower ("pubchem") then
      Json.str ("https://pubchem.ncbi.nlm.nih.gov/compound/" ++ i)
    else if strIncludes dbLower ("chemspider") then
      Json.str ("https://www.chemspider.com/Chemical-Structure." ++ i ++ ".html")
    else if strIncludes dbLower ("chebi") then
      Json.str ("https://www.ebi.ac.uk/chebi/searchId.do?chebiId=" ++ i)
    else if strIncludes dbLower ("pdb") then
      Json.str ("https://www.rcsb.org/structure/" ++ i)
    else if strIncludes dbLower ("pubmed") then
      Json.str ("https://pubmed.ncbi.nlm.nih.gov/" ++ i)
    else if strIncludes dbLower ("uniprot") then
      Json.str ("https://www.uniprot.org/uniprot/" ++ i)
    else if strIncludes dbLower ("kegg") then
      Json.str ("https://www.genome.jp/entry/" ++ i)
    else Json.null

/-- The six reference categories of `organizeCrossReferences`. -/
inductive XrefBucket where
  | chemical
  | structural
  | literature
  | patents
  | biological
  | other
deriving Repr, DecidableEq

/-- The categorisation if-chain of `organizeCrossReferences`
(part_001:2250-2266): case-insensitive substring matching of the source
database name against the fixed keyword table. -/
def bucketOf (ref : XRef) : XrefBucket :=
  let dbName := jsOrStr (ref.xref_src_db.map strToLower) ""
  if strIncludes dbName ("pubchem") || strIncludes dbName ("chemspider") ||
     strIncludes dbName ("chebi") then XrefBucket.chemical
  else if strIncludes dbName ("pdb") || strIncludes dbName ("rcsb") then XrefBucket.structural
  else if strIncludes dbName ("pubmed") || strIncludes dbName ("doi") then XrefBucket.literature
  else if strIncludes dbName ("patent") then XrefBucket.patents
  else if strIncludes dbName ("uniprot") || strIncludes dbName ("gene") ||
     strIncludes dbName ("kegg") then XrefBucket.biological
  else XrefBucket.other

/-- The bucket assignment exactly as the specification claim words it: the
first row of the keyword table, in order, one of whose keywords is a
case-insensitive substring of the source database name. -/
def claimBucket (ref : XRef) : XrefBucket :=
  let dbName := strToLower (ref.xref_src_db.getD "")
  if ["pubchem", "chemspider", "chebi"].any (fun kw => strIncludes dbName kw) then
    XrefBucket.chemical
  else if ["pdb", "rcsb"].any (fun kw => strIncludes dbName kw) then XrefBucket.structural
  else if ["pubmed", "doi"].any (fun kw => strIncludes dbName kw) then XrefBucket.literature
  else if ["patent"].any (fun kw => strIncludes dbName kw) then XrefBucket.patents
  else if ["uniprot", "gene", "kegg"].any (fun kw => strIncludes dbName kw) then
    XrefBucket.biological
  else XrefBucket.other

/-- The organised reference collection (the six top-level keys of the
`organized` object; keyed sub-objects are association lists in insertion
order). -/
structure Organized where
  chemical_databases : List (String × List Json) := []
  structural_pdb : List Json := []
  literature_pubmed : List Json := []
  patents : List Json := []
  biological : List (String × List Json) := []
  other : List Json := []
deriving Repr

/-- `organized.x[dbName] = organized.x[dbName] || []; push(reference)`. -/
def pushKey (acc : List (String × List Json)) (k : String) (v : Json) :
    List (String × List Json) :=
  if acc.any (fun p => p.1 == k) then
    acc.map (fun p => if p.1 == k then (p.1, p.2 ++ [v]) else p)
  else acc ++ [(k, [v])]

/-- Keyed lookup in an organised sub-object (missing key gives `[]`). -/
def lookupKey (acc : List (String × List Json)) (k : String) : List Json :=
  ((acc.find? (fun p => p.1 == k)).map (fun p => p.2)).getD []

/-- The `reference` record built for each cross-reference
(part_001:2242-2247). -/
def xrefReferenceJson (ref : XRef) : Json :=
  Json.obj
    [("database", optStrJson ref.xref_src_db),
     ("id", optStrJson ref.xref_id),
     ("name", optStrJson ref.xref_name),
     ("url", generateReferenceUrl ref.xref_src_db ref.xref_id)]

/-- One step of the `references.forEach` loop of `organizeCrossReferences`. -/
def organizeStep (org : Organized) (ref : XRef) : Organized :=
  let dbName := jsOrStr (ref.xref_src_db.map strToLower) ""
  let reference := xrefReferenceJson ref
  match bucketOf ref with
  | XrefBucket.chemical =>
    { org with chemical_databases := pushKey org.chemical_databases dbName reference }
  | XrefBucket.structural =>
    { org with structural_pdb := org.structural_pdb ++ [reference] }
  | XrefBucket.literature =>
    { org with literature_pubmed := org.literature_pubmed ++ [reference] }
  | XrefBucket.patents =>
    { org with patents := org.patents ++ [reference] }
  | XrefBucket.biological =>
    { org with biological := pushKey org.biological dbName reference }
  | XrefBucket.other =>
    { org with other := org.other ++ [reference] }

/-- `organizeCrossReferences` (part_001:2230-2270). -/
def organizeCrossReferences (references : List XRef) : Organized :=
  references.foldl organizeStep {}

/-- `countTotalReferences` (part_001:2297-2321). -/
def countTotalReferences (org : Organized) : ℕ :=
  (org.chemical_databases.map (fun p => p.2.length)).sum +
  org.structural_pdb.length +
  org.literature_pubmed.length +
  org.patents.length +
  (org.biological.map (fun p => p.2.length)).sum +
  org.other.length

/-- `generateUsageRecommendations` (part_001:2323-2350). -/
def generateUsageRecommendations (org : Organized) : List String :=
  let recommendations : List String := []
  let recommendations := if org.structural_pdb.length > 0 then recommendations ++
      ["PDB structures available - suitable for structure-based drug design"]
    else recommendations
  let recommendations := if (lookupKey org.chemical_databases ("pubchem")).length > 0 then
      recommendations ++ ["PubChem data available - check for additional bioactivity data"]
    else recommendations
  let recommendations := if org.literature_pubmed.length > 0 then recommendations ++
      ["Literature references available - review for mechanism and SAR data"]
    else recommendations
  let recommendations := if (lookupKey org.biological ("uniprot")).length > 0 then
      recommendations ++ ["UniProt references available - check target protein information"]
    else recommendations
  let recommendations := if org.patents.length > 0 then recommendations ++
      ["Patent information available - review for IP considerations"]
    else recommendations
  if recommendations.isEmpty then
    ["Limited external references - consider expanding search to related compounds"]
  else recommendations

/-- Serialise the organised collection the way the result object nests it
(sub-keys created lazily, exactly when a matching reference was pushed). -/
def organizedJson (org : Organized) : Json :=
  Json.obj
    [("chemical_databases",
      Json.obj (org.chemical_databases.map (fun p => (p.1, Json.arr p.2)))),
     ("structural",
      Json.obj (if org.structural_pdb.isEmpty then []
                else [("pdb", Json.arr org.structural_pdb)])),
     ("literature",
      Json.obj (if org.literature_pubmed.isEmpty then []
                else [("pubmed", Json.arr org.literature_pubmed)])),
     ("patents", Json.arr org.patents),
     ("biological", Json.obj (org.biological.map (fun p => (p.1, Json.arr p.2)))),
     ("other", Json.arr org.other)]

/-- `handleGetExternalReferences` (part_001:2113-2185).  The first
(`/molecule/{id}.json`) fetch is required; the aggregation that follows is
best-effort. -/
def handleGetExternalReferences (a : Args) (api : ApiFn) : HRes :=
  if a.chembl_id.isNone then
    invalid ("Invalid arguments: chembl_id is required")
  else
    let cid := a.chembl_id.getD ""
    runTry ("Failed to get external references: ") (do
      let compound ← apiGet { path := "/molecule/" ++ cid ++ ".json" }
      let crossReferences ← gatherCrossReferences cid
      let organized := organizeCrossReferences crossReferences
      let synonyms := compound.getArr ("molecule_synonyms")
      pure [ContentItem.json (Json.obj
        [("chembl_id", compound.getD ("molecule_chembl_id") Json.null),
         ("pref_name", compound.getD ("pref_name") Json.null),
         ("molecule_type", compound.getD ("molecule_type") Json.null),
         ("structural_identifiers", Json.obj
           [("canonical_smiles", compound.getPath2 ("molecule_structures") ("canonical_smiles")),
            ("standard_inchi", compound.getPath2 ("molecule_structures") ("standard_inchi")),
            ("standard_inchi_key", compound.getPath2 ("molecule_structures") ("standard_inchi_key"))]),
         ("external_references", organizedJson organized),
         ("identifiers", Json.obj
           [("synonyms", Json.arr (synonyms.map (fun syn => Json.obj
              [("synonym", syn.getD ("molecule_synonym") Json.null),
               ("syn_type", syn.getD ("syn_type") Json.null)]))),
            ("trade_names", Json.arr
              ((synonyms.filter (fun syn => syn.getStr? ("syn_type") == some "TRADE_NAME")).map
                (fun syn => syn.getD ("molecule_synonym") Json.null)))]),
         ("hierarchy", jsOrJ (compound.get? ("molecule_hierarchy")) (Json.obj [])),
         ("reference_summary", Json.obj
           -- `Object.keys(organizedReferences).length` is the fixed six keys
           [("total_references", Json.num (countTotalReferences organized)),
            ("database_count", Json.num 6),
            ("has_pdb_structures", Json.bool (decide (organized.structural_pdb.length > 0))),
            ("has_pubmed_refs", Json.bool (decide (organized.literature_pubmed.length > 0))),
            ("has_patent_refs", Json.bool (decide (organized.patents.length > 0)))]),
         ("usage_recommendations", Json.arr
           ((generateUsageRecommendations organized).map Json.str))])]) api

/-! ## Handlers: advanced property search -/

/-- Zero-pad a string on the left to a given width. -/
def padZeros (s : String) (d : ℕ) : String :=
  String.mk (List.replicate (d - s.length) '0') ++ s

/-- `Number.prototype.toFixed(d)` over ℚ: round half away from zero to `d`
decimals and render (binary-float rounding quirks are not modelled). -/
def toFixed (d : ℕ) (q : ℚ) : String :=
  let scaled : ℤ := jsRound (|q| * (10 : ℚ) ^ d)
  let ip := scaled / ((10 : ℤ) ^ d)
  let fp := scaled % ((10 : ℤ) ^ d)
  let sign := if q < 0 && scaled ≠ 0 then "-" else ""
  if d = 0 then sign ++ toString ip
  else sign ++ toString ip ++ "." ++ padZeros (toString fp) d

/-- Truncate a JS number used as a slice bound to a natural number. -/
def qToNat (q : ℚ) : ℕ := (Int.floor q).toNat

/-- `calculatePropertyStats` (part_001:2482-2504): filter out absent values,
sort ascending, report count/min/max/mean/median (mean and median rendered
via `toFixed(2)`). -/
def calculatePropertyStats (properties : List Json) (propertyName : String) : Json :=
  let values := (properties.filterMap (fun p => p.getNum? propertyName)).mergeSort
    (fun x y => decide (x ≤ y))
  match values with
  | [] => Json.obj [("message", Json.str "No valid data available")]
  | v :: vs =>
    let n := (v :: vs).length
    let median := if n % 2 = 0 then
        toFixed 2 (((v :: vs).getD (n / 2 - 1) 0 + (v :: vs).getD (n / 2) 0) / 2)
      else toFixed 2 ((v :: vs).getD (n / 2) 0)
    Json.obj
      [("count", Json.num n),
       ("min", Json.num v),
       ("max", Json.num (((v :: vs).getLast?).getD v)),
       ("mean", Json.str (toFixed 2 ((v :: vs).sum / n))),
       ("median", Json.str median)]

/-- Is a compound Lipinski-compliant in the advanced-search sense
(`(p.num_ro5_violations || 0) === 0`)? -/
def lipinskiCompliantJson (p : Json) : Bool :=
  decide (jsOrQ (p.getNum? ("num_ro5_violations")) 0 = 0)

/-- `analyzeAdvancedSearchResults` (part_001:2454-2480). -/
def analyzeAdvancedSearchResults (compounds : List Json) : Json :=
  if compounds.length = 0 then
    Json.obj
      [("message", Json.str "No compounds found matching the specified criteria"),
       ("suggestions", Json.str "Consider relaxing search parameters")]
  else
    let properties := (compounds.map (fun c => c.getD ("molecule_properties") Json.null)).filter
      jsTruthyJson
    let compliant := (properties.filter lipinskiCompliantJson).length
    Json.obj
      [("molecular_weight", calculatePropertyStats properties ("mw_freebase")),
       ("alogp", calculatePropertyStats properties ("alogp")),
       ("hydrogen_bond_donors", calculatePropertyStats properties ("hbd")),
       ("hydrogen_bond_acceptors", calculatePropertyStats properties ("hba")),
       ("polar_surface_area", calculatePropertyStats properties ("psa")),
       ("rotatable_bonds", calculatePropertyStats properties ("rtb")),
       ("drug_likeness", Json.obj
         [("lipinski_compliant", Json.num compliant),
          ("total_compounds", Json.num properties.length),
          ("compliance_rate",
            if properties.length > 0 then
              Json.str (toFixed 1 ((compliant : ℚ) / properties.length * 100) ++ "%")
            else Json.str "0%")])]

/-- `generateAdvancedSearchInsights` (part_001:2506-2542). -/
def generateAdvancedSearchInsights (compounds : List Json) (a : Args) : List String :=
  if compounds.length = 0 then
    ["No compounds found - consider broadening search criteria"]
  else
    let properties := (compounds.map (fun c => c.getD ("molecule_properties") Json.null)).filter
      jsTruthyJson
    let insights : List String := []
    let insights := if jsTruthyNum a.min_mw || jsTruthyNum a.max_mw then
        let avgMw := (properties.map (fun p => jsOrQ (p.getNum? ("mw_freebase")) 0)).sum /
          properties.length
        insights ++ ["Average molecular weight: " ++ toFixed 1 avgMw ++ " Da"]
      else insights
    let lipinskiCompliant := (properties.filter lipinskiCompliantJson).length
    let complianceRate := toFixed 1 ((lipinskiCompliant : ℚ) / properties.length * 100)
    let insights := insights ++
      [complianceRate ++ "% of compounds are Lipinski Rule of Five compliant"]
    let insights := if jsTruthyNum a.min_logp || jsTruthyNum a.max_logp then
        let logpValues := properties.filterMap (fun p => p.getNum? ("alogp"))
        if logpValues.length > 0 then
          insights ++ ["Average LogP: " ++ toFixed 2 (logpValues.sum / logpValues.length) ++
            " (lipophilicity indicator)"]
        else insights
      else insights
    let moleculeTypes := (compounds.map (fun c => c.getStr? ("molecule_type"))).foldl
      (fun acc x => if acc.contains x then acc else acc ++ [x]) []
    let insights := if moleculeTypes.length > 1 then
        insights ++ ["Chemical diversity: " ++ toString moleculeTypes.length ++
          " different molecule types found"]
      else insights
    insights

/-- `generateAdvancedSearchRecommendations` (part_001:2544-2586).  A
compliance rate computed over an empty property list is `NaN` in JS and
fails both comparisons; that case is guarded explicitly here. -/
def generateAdvancedSearchRecommendations (compounds : List Json) (a : Args) : List String :=
  if compounds.length = 0 then
    ["Try increasing molecular weight range",
     "Consider relaxing LogP constraints",
     "Remove hydrogen bonding limitations"]
  else
    let properties := (compounds.map (fun c => c.getD ("molecule_properties") Json.null)).filter
      jsTruthyJson
    let recommendations : List String := []
    let recommendations := if (compounds.length : ℚ) < jsOrQ a.limit 25 / 2 then
        recommendations ++ ["Consider broadening search parameters for more diverse results"]
      else recommendations
    let lipinskiCompliant := (properties.filter lipinskiCompliantJson).length
    let recommendations :=
      if properties.length ≠ 0 ∧ (lipinskiCompliant : ℚ) / properties.length < 1/2 then
        recommendations ++
          ["Many compounds violate Lipinski rules - consider tightening MW/LogP constraints for drug-like properties"]
      else if properties.length ≠ 0 ∧ (lipinskiCompliant : ℚ) / properties.length > 9/10 then
        recommendations ++
          ["High drug-likeness compliance - good for lead optimization studies"]
      else recommendations
    let recommendations := if jsTruthyNum a.min_mw && jsTruthyNum a.max_mw then
        if a.max_mw.getD 0 - a.min_mw.getD 0 < 100 then
          recommendations ++
            ["Narrow MW range may limit chemical diversity - consider expanding"]
        else recommendations
      else recommendations
    let recommendations := if a.max_hbd.isSome && decide (a.max_hbd.getD 0 < 3) then
        recommendations ++ ["Low HBD limit may exclude important pharmacophores"]
      else recommendations
    recommendations ++
      ["Use substructure_search for scaffold-based filtering",
       "Apply calculate_descriptors for detailed property analysis",
       "Consider get_external_references for additional compound information"]

/-- The per-compound record of the advanced-search result list
(part_001:2414-2432). -/
def advancedSearchCompound (compound : Json) : Json :=
  Json.obj
    [("chembl_id", compound.getD ("molecule_chembl_id") Json.null),
     ("pref_name", compound.getD ("pref_name") Json.null),
     ("molecule_type", compound.getD ("molecule_type") Json.null),
     ("molecular_properties", Json.obj
       [("molecular_weight", compound.getPath2 ("molecule_properties") ("mw_freebase")),
        ("alogp", compound.getPath2 ("molecule_properties") ("alogp")),
        ("hbd", compound.getPath2 ("molecule_properties") ("hbd")),
        ("hba", compound.getPath2 ("molecule_properties") ("hba")),
        ("psa", compound.getPath2 ("molecule_properties") ("psa")),
        ("rotatable_bonds", compound.getPath2 ("molecule_properties") ("rtb")),
        ("lipinski_violations", compound.getPath2 ("molecule_properties") ("num_ro5_violations"))]),
     ("structures", Json.obj
       [("canonical_smiles", compound.getPath2 ("molecule_structures") ("canonical_smiles")),
        ("standard_inchi_key", compound.getPath2 ("molecule_structures") ("standard_inchi_key"))])]

/-- `x || 'not specified'` for the echoed search parameters (JS truthiness:
a zero bound echoes as not specified). -/
def boundJson (x : Option ℚ) : Json :=
  if jsTruthyNum x then Json.num (x.getD 0) else Json.str "not specified"

/-- `handleAdvancedSearch` (part_001:2352-2452). -/
def handleAdvancedSearch (a : Args) (api : ApiFn) : HRes :=
  if !(isValidPropertyFilterArgs a) then invalid ("Invalid advanced search arguments")
  else
    runTry ("Failed to perform advanced search: ") (do
      let ps := [("limit", PV.num (jsOrQ a.limit 25))]
      let ps := match a.min_mw with
        | some v => ps ++ [("molecule_properties__mw_freebase__gte", PV.num v)]
        | none => ps
      let ps := match a.max_mw with
        | some v => ps ++ [("molecule_properties__mw_freebase__lte", PV.num v)]
        | none => ps
      let ps := match a.min_logp with
        | some v => ps ++ [("molecule_properties__alogp__gte", PV.num v)]
        | none => ps
      let ps := match a.max_logp with
        | some v => ps ++ [("molecule_properties__alogp__lte", PV.num v)]
        | none => ps
      let ps := match a.max_hbd with
        | some v => ps ++ [("molecule_properties__hbd__lte", PV.num v)]
        | none => ps
      let ps := match a.max_hba with
        | some v => ps ++ [("molecule_properties__hba__lte", PV.num v)]
        | none => ps
      let resp ← apiGet { path := "/molecule.json", params := ps }
      let compounds := resp.getArr ("molecules")
      pure [ContentItem.json (Json.obj
        [("search_parameters", Json.obj
           [("molecular_weight_range", Json.obj
              [("min", boundJson a.min_mw), ("max", boundJson a.max_mw)]),
            ("logp_range", Json.obj
              [("min", boundJson a.min_logp), ("max", boundJson a.max_logp)]),
            ("hydrogen_bonding_limits", Json.obj
              [("max_donors", boundJson a.max_hbd), ("max_acceptors", boundJson a.max_hba)]),
            ("limit", Json.num (jsOrQ a.limit 25))]),
         ("results_summary", Json.obj
           [("total_found", Json.num compounds.length),
            ("compounds_analyzed", Json.num (min (compounds.length : ℚ) (jsOrQ a.limit 25)))]),
         ("property_analysis", analyzeAdvancedSearchResults compounds),
         ("compounds", Json.arr
           ((compounds.take (qToNat (jsOrQ a.limit 25))).map advancedSearchCompound)),
         ("search_insights", Json.arr
           ((generateAdvancedSearchInsights compounds a).map Json.str)),
         ("recommendations", Json.arr
           ((generateAdvancedSearchRecommendations compounds a).map Json.str))])]) api

/-! ## The tool dispatcher (`setupToolHandlers`, part_001:751-833) -/

/-- The 27 tools of the `CallToolRequestSchema` switch. -/
inductive Tool where
  | search_compounds
  | get_compound_info
  | search_by_inchi
  | get_compound_structure
  | search_similar_compounds
  | search_targets
  | get_target_info
  | get_target_compounds
  | search_by_uniprot
  | get_target_pathways
  | search_activities
  | get_assay_info
  | search_by_activity_type
  | get_dose_response
  | compare_activities
  | search_drugs
  | get_drug_info
  | search_drug_indications
  | get_mechanism_of_action
  | analyze_admet_properties
  | calculate_descriptors
  | predict_solubility
  | assess_drug_likeness
  | substructure_search
  | batch_compound_lookup
  | get_external_references
  | advanced_search
deriving Repr, DecidableEq

/-- The `switch (name)` of the call-tool handler: tool name to handler. -/
def dispatchTool (name : String) : Option Tool :=
  if name = "search_compounds" then some Tool.search_compounds
  else if name = "get_compound_info" then some Tool.get_compound_info
  else if name = "search_by_inchi" then some Tool.search_by_inchi
  else if name = "get_compound_structure" then some Tool.get_compound_structure
  else if name = "search_similar_compounds" then some Tool.search_similar_compounds
  else if name = "search_targets" then some Tool.search_targets
  else if name = "get_target_info" then some Tool.get_target_info
  else if name = "get_target_compounds" then some Tool.get_target_compounds
  else if name = "search_by_uniprot" then some Tool.search_by_uniprot
  else if name = "get_target_pathways" then some Tool.get_target_pathways
  else if name = "search_activities" then some Tool.search_activities
  else if name = "get_assay_info" then some Tool.get_assay_info
  else if name = "search_by_activity_type" then some Tool.search_by_activity_type
  else if name = "get_dose_response" then some Tool.get_dose_response
  else if name = "compare_activities" then some Tool.compare_activities
  else if name = "search_drugs" then some Tool.search_drugs
  else if name = "get_drug_info" then some Tool.get_drug_info
  else if name = "search_drug_indications" then some Tool.search_drug_indications
  else if name = "get_mechanism_of_action" then some Tool.get_mechanism_of_action
  else if name = "analyze_admet_properties" then some Tool.analyze_admet_properties
  else if name = "calculate_descriptors" then some Tool.calculate_descriptors
  else if name = "predict_solubility" then some Tool.predict_solubility
  else if name = "assess_drug_likeness" then some Tool.assess_drug_likeness
  else if name = "substructure_search" then some Tool.substructure_search
  else if name = "batch_compound_lookup" then some Tool.batch_compound_lookup
  else if name = "get_external_references" then some Tool.get_external_references
  else if name = "advanced_search" then some Tool.advanced_search
  else none

/-- Run one tool's handler. -/
def runTool (t : Tool) (a : Args) (api : ApiFn) : HRes :=
  match t with
  | Tool.search_compounds => handleSearchCompounds a api
  | Tool.get_compound_info => handleGetCompoundInfo a api
  | Tool.search_by_inchi => handleSearchByInchi a api
  | Tool.get_compound_structure => handleGetCompoundStructure a api
  | Tool.search_similar_compounds => handleSearchSimilarCompounds a api
  | Tool.search_targets => handleSearchTargets a api
  | Tool.get_target_info => handleGetTargetInfo a api
  | Tool.get_target_compounds => handleGetTargetCompounds a api
  | Tool.search_by_uniprot => handleSearchByUniprot a api
  | Tool.get_target_pathways => handleGetTargetPathways a api
  | Tool.search_activities => handleSearchActivities a api
  | Tool.get_assay_info => handleGetAssayInfo a api
  | Tool.search_by_activity_type => handleSearchByActivityType a api
  | Tool.get_dose_response => handleGetDoseResponse a api
  | Tool.compare_activities => handleCompareActivities a api
  | Tool.search_drugs => handleSearchDrugs a api
  | Tool.get_drug_info => handleGetDrugInfo a api
  | Tool.search_drug_indications => handleSearchDrugIndications a api
  | Tool.get_mechanism_of_action => handleGetMechanismOfAction a api
  | Tool.analyze_admet_properties => handleAnalyzeAdmetProperties a api
  | Tool.calculate_descriptors => handleCalculateDescriptors a api
  | Tool.predict_solubility => handlePredictSolubility a api
  | Tool.assess_drug_likeness => handleAssessDrugLikeness a api
  | Tool.substructure_search => handleSubstructureSearch a api
  | Tool.batch_compound_lookup => handleBatchCompoundLookup a api
  | Tool.get_external_references => handleGetExternalReferences a api
  | Tool.advanced_search => handleAdvancedSearch a api

/-- Does a tool's validation gate accept the arguments (so that its `try`
body runs)? -/
def acceptsArgs (t : Tool) (a : Args) : Bool :=
  match t with
  | Tool.search_compounds => isValidCompoundSearchArgs a
  | Tool.get_compound_info => isValidChemblIdArgs a
  | Tool.search_by_inchi => isValidInchiSearchArgs a
  | Tool.get_compound_structure => a.chembl_id.isSome
  | Tool.search_similar_compounds => isValidSimilaritySearchArgs a
  | Tool.search_targets => true
  | Tool.get_target_info => isValidChemblIdArgs a
  | Tool.get_target_compounds => a.target_chembl_id.isSome
  | Tool.search_by_uniprot => a.uniprot_id.isSome
  | Tool.get_target_pathways => a.target_chembl_id.isSome
  | Tool.search_activities => true
  | Tool.get_assay_info => isValidChemblIdArgs a
  | Tool.search_by_activity_type => a.activity_type.isSome
  | Tool.get_dose_response => a.molecule_chembl_id.isSome
  | Tool.compare_activities =>
    match a.molecule_chembl_ids with
    | some ids => decide (ids.length ≥ 2)
    | none => false
  | Tool.search_drugs => isValidCompoundSearchArgs a
  | Tool.get_drug_info => isValidChemblIdArgs a
  | Tool.search_drug_indications =>
    match a.indication with
    | some s => decide (s.length > 0)
    | none => false
  | Tool.get_mechanism_of_action => a.chembl_id.isSome
  | Tool.analyze_admet_properties => a.chembl_id.isSome
  | Tool.calculate_descriptors => a.chembl_id.isSome || a.smiles.isSome
  | Tool.predict_solubility => a.chembl_id.isSome || a.smiles.isSome
  | Tool.assess_drug_likeness => a.chembl_id.isSome || a.smiles.isSome
  | Tool.substructure_search => isValidSubstructureSearchArgs a
  | Tool.batch_compound_lookup => isValidBatchArgs a
  | Tool.get_external_references => a.chembl_id.isSome
  | Tool.advanced_search => isValidPropertyFilterArgs a

/-- The message prelude each tool's outer `catch` attaches to an upstream
error (for `get_drug_info` it is the one of the compound-info handler it
delegates to). -/
def errPre (t : Tool) : String :=
  match t with
  | Tool.search_compounds => "Failed to search compounds: "
  | Tool.get_compound_info => "Failed to get compound info: "
  | Tool.search_by_inchi => "ChEMBL API error: "
  | Tool.get_compound_structure => "Failed to get structure: "
  | Tool.search_similar_compounds => "Failed to search similar compounds: "
  | Tool.search_targets => "Failed to search targets: "
  | Tool.get_target_info => "Failed to get target info: "
  | Tool.get_target_compounds => "Failed to get target compounds: "
  | Tool.search_by_uniprot => "Failed to search by UniProt ID: "
  | Tool.get_target_pathways => "Failed to get target pathways: "
  | Tool.search_activities => "Failed to search activities: "
  | Tool.get_assay_info => "Failed to get assay info: "
  | Tool.search_by_activity_type => "Failed to search by activity type: "
  | Tool.get_dose_response => "Failed to get dose response data: "
  | Tool.compare_activities => "Failed to compare activities: "
  | Tool.search_drugs => "ChEMBL API error: "
  | Tool.get_drug_info => "Failed to get compound info: "
  | Tool.search_drug_indications => "ChEMBL API error: "
  | Tool.get_mechanism_of_action => "Failed to get mechanism of action: "
  | Tool.analyze_admet_properties => "Failed to analyze ADMET properties: "
  | Tool.calculate_descriptors => "Failed to calculate descriptors: "
  | Tool.predict_solubility => "Failed to predict solubility: "
  | Tool.assess_drug_likeness => "Failed to assess drug-likeness: "
  | Tool.substructure_search => "Failed to perform substructure search: "
  | Tool.batch_compound_lookup => "Batch lookup failed: "
  | Tool.get_external_references => "Failed to get external references: "
  | Tool.advanced_search => "Failed to perform advanced search: "

/-- A tool result as sent back to the MCP caller. -/
structure ToolResult where
  content : List ContentItem
  isError : Bool := false

/-- The dispatcher (part_001:751-833): an unknown tool name raises
`MethodNotFound`; any error thrown by a handler — invalid parameters, the
unknown-tool error, or a wrapped upstream failure — is caught and rendered
as a single-text-item result with `isError: true`. -/
def callTool (name : String) (a : Args) (api : ApiFn) : ToolResult × List ApiReq :=
  match dispatchTool name with
  | none =>
    ({ content := [ContentItem.text
         ("Error executing tool " ++ name ++ ": " ++ ("Unknown tool: " ++ name))],
       isError := true }, [])
  | some t =>
    match runTool t a api with
    | (Except.ok out, tr) => ({ content := out, isError := false }, tr)
    | (Except.error e, tr) =>
      ({ content := [ContentItem.text
           ("Error executing tool " ++ name ++ ": " ++ e.message)],
         isError := true }, tr)

/-- The error, if any, that handling a call-tool request raises before the
dispatcher's `catch` renders it: an unknown-tool `MethodNotFound`, or
whatever `McpError` the dispatched handler threw. -/
def toolErrorOf (name : String) (a : Args) (api : ApiFn) : Option McpErr :=
  match dispatchTool name with
  | none => some { code := ErrCode.methodNotFound, message := "Unknown tool: " ++ name }
  | some t =>
    match (runTool t a api).1 with
    | Except.error e => some e
    | Except.ok _ => none

/-- An oracle on which every upstream call fails with message `m`. -/
def failApi (m : String) : ApiFn := fun _ => Except.error m

/-- An oracle that fails exactly on the optional best-effort endpoints (the
two cross-reference fetches and the mechanism fetch) and returns an empty
object elsewhere. -/
def optFailApi (m : String) : ApiFn := fun req =>
  if req.path = "/molecule_xref.json" || req.path = "/compound_record.json" ||
     req.path = "/mechanism.json" then Except.error m
  else Except.ok (Json.obj [])

/-- An oracle that fails exactly on the exact-match molecule search used by
the substructure query-structure analysis. -/
def moleculeFailApi (m : String) : ApiFn := fun req =>
  if req.path = "/molecule.json" then Except.error m
  else Except.ok (Json.obj [])

/-! ## Evaluation lemmas for the call-tracing monad -/

lemma apiM_bind_apply {α β : Type} (x : ApiM α) (f : α → ApiM β) (api : ApiFn) :
    (x >>= f) api = match x api with
      | (Except.ok a, t) =>
        match f a api with
        | (r, t2) => (r, t ++ t2)
      | (Except.error e, t) => (Except.error e, t) := rfl

lemma apiM_pure_apply {α : Type} (v : α) (api : ApiFn) :
    (pure v : ApiM α) api = (Except.ok v, []) := rfl

lemma apiGet_apply (req : ApiReq) (api : ApiFn) : apiGet req api = (api req, [req]) := rfl

/-- The first component of `runTry`: success passes through, an error gets
the handler's message prelude and becomes an internal error. -/
lemma runTry_fst (pre : String) (body : ApiM (List ContentItem)) (api : ApiFn) :
    (runTry pre body api).1 = match (body api).1 with
      | Except.ok out => Except.ok out
      | Except.error m =>
        Except.error { code := ErrCode.internalError, message := pre ++ m } := by
  cases hb : body api with
  | mk r t => cases r <;> simp [runTry, hb]

/-- A one-request `try` body records exactly that request, whatever the
oracle answers. -/
lemma runTry_get_trace (pre : String) (req : ApiReq) (f : Json → List ContentItem)
    (api : ApiFn) :
    (runTry pre (apiGet req >>= fun resp => pure (f resp)) api).2 = [req] := by
  cases h : api req <;>
    simp [runTry, apiM_bind_apply, apiGet, h, apiM_pure_apply]

/-- A batch item always succeeds (its `catch` swallows the failure), pushes
`batchRecord` and records exactly its one request. -/
lemma batchItem_apply (i : String) (api : ApiFn) :
    batchItem i api = (Except.ok (batchRecord api i), [batchReq i]) := by
  cases h : api (batchReq i) <;>
    simp [batchItem, jsTry, apiM_bind_apply, apiGet, apiM_pure_apply, batchRecord, h]

/-- A batch record always reports its own identifier, succeed or fail. -/
lemma batchRecord_chemblId (api : ApiFn) (i : String) :
    chemblIdOfRecord (batchRecord api i) = some i := by
  cases h : api (batchReq i) <;>
    simp [chemblIdOfRecord, batchRecord, Json.getStr?, Json.get?, h]

/-- Evaluation of the push loop when every item yields one record and one
request: records and requests both come out in supply order. -/
lemma forPush_item {α : Type} (f : α → ApiM Json) (g : α → Json) (r : α → ApiReq)
    (api : ApiFn) (h : ∀ x, f x api = (Except.ok (g x), [r x])) (xs : List α) :
    forPush f xs api = (Except.ok (xs.map g), xs.map r) := by
  induction xs with
  | nil => rfl
  | cons x xs ih =>
    simp [forPush, apiM_bind_apply, h, ih, apiM_pure_apply]

/-- First-component evaluation of bind. -/
lemma apiM_bind_fst {α β : Type} (x : ApiM α) (f : α → ApiM β) (api : ApiFn) :
    ((x >>= f) api).1 = match (x api).1 with
      | Except.ok a => (f a api).1
      | Except.error e => Except.error e := by
  cases hx : x api with
  | mk r t =>
    cases r with
    | ok a =>
      cases hf : f a api with
      | mk r2 t2 => simp [apiM_bind_apply, hx, hf]
    | error e => simp [apiM_bind_apply, hx]

/-- A comparison item under a failing oracle always yields the
`success: false` record. -/
lemma compareItem_fail_fst (a : Args) (m i : String) :
    (compareItem a i (failApi m)).1 = Except.ok (Json.obj
      [("molecule_chembl_id", Json.str i), ("error", Json.str m),
       ("success", Json.bool false)]) := by
  simp only [compareItem]
  cases h1 : jsTruthyStr a.target_chembl_id <;> cases h2 : jsTruthyStr a.activity_type <;>
    simp [jsTry, apiM_bind_apply, apiGet, failApi, apiM_pure_apply, h1, h2]

/-- First-component evaluation of the push loop when every item's outcome is
known. -/
lemma forPush_fst {α : Type} (f : α → ApiM Json) (g : α → Json) (api : ApiFn)
    (h : ∀ x, (f x api).1 = Except.ok (g x)) (xs : List α) :
    (forPush f xs api).1 = Except.ok (xs.map g) := by
  induction xs with
  | nil => rfl
  | cons x xs ih =>
    have hx := h x
    cases hfx : f x api with
    | mk r1 t1 =>
      rw [hfx] at hx
      subst hx
      cases hrest : forPush f xs api with
      | mk r2 t2 =>
        rw [hrest] at ih
        simp at ih
        subst ih
        simp [forPush, apiM_bind_apply, hfx, hrest, apiM_pure_apply]

/-! ## Helper lemmas for the score calculators -/

/-- A code rule check passes iff the property is present, nonzero and within
the threshold (JS truthiness makes a present `0` fail). -/
lemma passChk_iff (x : Option ℚ) (t : ℚ) :
    passChk x t = true ↔ ∃ v, x = some v ∧ v ≠ 0 ∧ v ≤ t := by
  cases x <;> simp [passChk]

/-- `jsOrQ x 0` is just the value with default `0`. -/
lemma jsOrQ_zero (x : Option ℚ) : jsOrQ x 0 = x.getD 0 := by
  cases x with
  | none => rfl
  | some v =>
    by_cases h : v = 0 <;> simp [jsOrQ, h]

/-- Both score calculators are determined by the number of passing checks. -/
lemma bio_calculators_eq (props : MolProps) :
    calculateBioavailabilityScore props = (bioChecksPassed props : ℚ) / 6 ∧
    calculateOralBioavailabilityScore props =
      (if 5 ≤ bioChecksPassed props then "High"
       else if 3 ≤ bioChecksPassed props then "Medium" else "Low") := by
  unfold calculateBioavailabilityScore calculateOralBioavailabilityScore bioChecksPassed
  cases passChk props.molecular_weight 500 <;>
    cases passChk props.alogp 5 <;>
    cases passChk props.hbd 5 <;>
    cases passChk props.hba 10 <;>
    cases passChk props.psa 140 <;>
    cases passChk props.rtb 10 <;>
    exact ⟨by norm_num, by norm_num⟩

/-- At most six checks can pass. -/
lemma bioChecksPassed_le_six (props : MolProps) : bioChecksPassed props ≤ 6 := by
  unfold bioChecksPassed
  cases passChk props.molecular_weight 500 <;>
    cases passChk props.alogp 5 <;>
    cases passChk props.hbd 5 <;>
    cases passChk props.hba 10 <;>
    cases passChk props.psa 140 <;>
    cases passChk props.rtb 10 <;>
    simp

/-! ## C1: bioavailability score calculators -/

/-- C1 counterexample: for a property record whose only present property is
`hbd = 0`, the claim counts one passing check (present and `0 ≤ 5`), so the
claimed score is `1/6`; but the code treats the present zero as falsy and
returns score `0`. -/
theorem C1_counterexample :
    claimChecksPassed { hbd := some 0 } = 1 ∧
    calculateBioavailabilityScore { hbd := some 0 } = 0 ∧
    calculateBioavailabilityScore { hbd := some 0 } ≠
      (claimChecksPassed { hbd := some 0 } : ℚ) / 6 := by
  refine ⟨by decide, ?_, ?_⟩ <;>
    norm_num [calculateBioavailabilityScore, passChk, claimChecksPassed, claimChk]

/-- C1 (amended): the numeric score is `count/6` and the categorical score
buckets `count ≥ 5 → High`, `count ≥ 3 → Medium`, else `Low`, where `count`
is the number of the six checks MW ≤ 500, logP ≤ 5, HBD ≤ 5, HBA ≤ 10,
PSA ≤ 140, RTB ≤ 10 that hold — a check holding iff the property is present,
**nonzero** and `≤` its threshold (inclusive); a missing or zero property
contributes 0.  The numeric score lies in `[0, 1]`. -/
theorem C1_amended (props : MolProps) :
    calculateBioavailabilityScore props = (bioChecksPassed props : ℚ) / 6 ∧
    0 ≤ calculateBioavailabilityScore props ∧
    calculateBioavailabilityScore props ≤ 1 ∧
    calculateOralBioavailabilityScore props =
      (if 5 ≤ bioChecksPassed props then "High"
       else if 3 ≤ bioChecksPassed props then "Medium" else "Low") ∧
    (∀ x t, passChk x t = true ↔ ∃ v, x = some v ∧ v ≠ 0 ∧ v ≤ t) := by
  obtain ⟨hnum, hcat⟩ := bio_calculators_eq props
  refine ⟨hnum, ?_, ?_, hcat, passChk_iff⟩
  · rw [hnum]
    positivity
  · rw [hnum]
    rw [div_le_one (by norm_num)]
    exact_mod_cast bioChecksPassed_le_six props

/-! ## C2: drug-likeness assessment -/

/-- C2: in the drug-likeness assessment, each per-field pass flag is an
inclusive `≤` comparison against its threshold when the property is present,
and `overall_pass` holds iff the upstream violation count (defaulting to 0
when missing) is at most 1. -/
theorem C2_drug_likeness (props : MolProps) (mw lp hd ha ps rt : ℚ)
    (hmw : props.molecular_weight = some mw) (hlp : props.alogp = some lp)
    (hhd : props.hbd = some hd) (hha : props.hba = some ha)
    (hps : props.psa = some ps) (hrt : props.rtb = some rt) :
    ((lipinskiOf props).mw_pass = true ↔ mw ≤ 500) ∧
    ((lipinskiOf props).logp_pass = true ↔ lp ≤ 5) ∧
    ((lipinskiOf props).hbd_pass = true ↔ hd ≤ 5) ∧
    ((lipinskiOf props).hba_pass = true ↔ ha ≤ 10) ∧
    (psaPassOf props = true ↔ ps ≤ 140) ∧
    (rtbPassOf props = true ↔ rt ≤ 10) ∧
    ((lipinskiOf props).overall_pass = true ↔ (props.num_ro5_violations).getD 0 ≤ 1) := by
  refine ⟨?_, ?_, ?_, ?_, ?_, ?_, ?_⟩ <;>
    simp [lipinskiOf, psaPassOf, rtbPassOf, jsLe, jsOrQ_zero, hmw, hlp, hhd, hha, hps, hrt]

/-- C2 witness: a fully-present property record with one violation field. -/
theorem C2_drug_likeness_witness :
    ((lipinskiOf { molecular_weight := some 180, alogp := some (6/5), hbd := some 1,
                   hba := some 4, psa := some 63, rtb := some 3,
                   num_ro5_violations := some 0 }).mw_pass = true) ∧
    ((lipinskiOf { molecular_weight := some 180, alogp := some (6/5), hbd := some 1,
                   hba := some 4, psa := some 63, rtb := some 3,
                   num_ro5_violations := some 0 }).overall_pass = true) := by
  have h := C2_drug_likeness
    { molecular_weight := some 180, alogp := some (6/5), hbd := some 1,
      hba := some 4, psa := some 63, rtb := some 3, num_ro5_violations := some 0 }
    180 (6/5) 1 4 63 3 rfl rfl rfl rfl rfl rfl
  exact ⟨h.1.mpr (by norm_num), h.2.2.2.2.2.2.mpr (by norm_num)⟩

/-! ## C3: solubility classification -/

/-- C3: the solubility classifier is a total non-overlapping partition of the
(rational) line into five bins with strict `>` breakpoints at −1, −2, −3, −4;
in particular `logS = −1` classifies as Soluble, not Very Soluble. -/
theorem C3_classifySolubility :
    (∀ logS : ℚ,
      (classifySolubility logS = "Very Soluble (>10 mg/mL)" ↔ -1 < logS) ∧
      (classifySolubility logS = "Soluble (1-10 mg/mL)" ↔ -2 < logS ∧ logS ≤ -1) ∧
      (classifySolubility logS = "Moderately Soluble (0.1-1 mg/mL)" ↔ -3 < logS ∧ logS ≤ -2) ∧
      (classifySolubility logS = "Slightly Soluble (0.01-0.1 mg/mL)" ↔ -4 < logS ∧ logS ≤ -3) ∧
      (classifySolubility logS = "Poorly Soluble (<0.01 mg/mL)" ↔ logS ≤ -4)) ∧
    classifySolubility (-1) = "Soluble (1-10 mg/mL)" := by
  refine ⟨fun logS => ?_, by norm_num [classifySolubility]⟩
  unfold classifySolubility
  split_ifs with h1 h2 h3 h4 <;>
    simp only [not_lt] at * <;>
    refine ⟨?_, ?_, ?_, ?_, ?_⟩ <;>
    constructor <;>
    intro hx
  all_goals
    first
      | rfl
      | linarith
      | (constructor <;> linarith)
      | (exact absurd hx (by decide))

/-! ## C4: similarity-threshold conversion -/

/-- C4 counterexample: the claim says the fraction `0` maps to the integer
percentage `0`, but `args.similarity || 0.7` treats `0` as falsy, so the
code maps it to the default `0.7` and the percentage `70`. -/
theorem C4_counterexample :
    similarityPercent (some 0) = 70 ∧ (70 : ℤ) ≠ 0 := by
  refine ⟨by norm_num [similarityPercent, jsOrQ, jsRound], by decide⟩

/-- C4 (amended): the similarity threshold is converted to
`Math.round(s * 100)` and embedded as a path segment of the upstream
request; an *absent or zero* threshold falls back to 0.7 (JS truthiness), so
`0.7 → 70`, `1 → 100`, and `0 → 70` (not 0); rounding is half-up
(`0.755 → 76`). -/
theorem C4_amended (a : Args) (hv : isValidSimilaritySearchArgs a = true) (api : ApiFn) :
    (handleSearchSimilarCompounds a api).2 =
      [{ path := "/similarity/" ++ encodeURIComponent (a.smiles.getD "") ++ "/" ++
           toString (similarityPercent a.similarity) ++ ".json",
         params := [("limit", PV.num (jsOrQ a.limit 25))] }] ∧
    similarityPercent none = 70 ∧
    similarityPercent (some 0) = 70 ∧
    (∀ s : ℚ, s ≠ 0 → similarityPercent (some s) = jsRound (s * 100)) ∧
    similarityPercent (some (7/10)) = 70 ∧
    similarityPercent (some 1) = 100 ∧
    similarityPercent (some (151/200)) = 76 := by
  refine ⟨?_, by norm_num [similarityPercent, jsOrQ, jsRound],
    by norm_num [similarityPercent, jsOrQ, jsRound],
    fun s hs => by simp [similarityPercent, jsOrQ, hs],
    by norm_num [similarityPercent, jsOrQ, jsRound],
    by norm_num [similarityPercent, jsOrQ, jsRound],
    by norm_num [similarityPercent, jsOrQ, jsRound]⟩
  simp only [handleSearchSimilarCompounds, hv, Bool.not_true, Bool.false_eq_true, if_false]
  exact runTry_get_trace _ _ _ api

/-- C4 witness: concrete arguments with threshold 0.755 against a concrete
oracle — the request path carries percentage 76. -/
theorem C4_amended_witness :
    (handleSearchSimilarCompounds { smiles := some "CCO", similarity := some (151/200) }
      (failApi "down")).2 =
      [{ path := "/similarity/CCO/76.json", params := [("limit", PV.num 25)] }] := by
  have h := C4_amended { smiles := some "CCO", similarity := some (151/200) }
    (by norm_num [isValidSimilaritySearchArgs, limitOk, String.length]) (failApi "down")
  rw [h.1]
  have h76 := h.2.2.2.2.2.2
  simp only [h76]
  rfl

/-! ## C5: activity-search validation is never invoked -/

/-- C5: the validator `isValidActivitySearchArgs` does reject an argument
object with none of the three identifier fields (here `{limit: 10}`), and
the specification says such a request must be rejected before any upstream
call — but `handleSearchActivities` never calls the validator: the request
is accepted and one upstream `/activity.json` call is issued. -/
theorem C5_validation_bypassed :
    isValidActivitySearchArgs { limit := some 10 } = false ∧
    (handleSearchActivities { limit := some 10 } (fun _ => Except.ok (Json.obj []))).2 =
      [{ path := "/activity.json", params := [("limit", PV.num 10)] }] ∧
    exOk (handleSearchActivities { limit := some 10 } (fun _ => Except.ok (Json.obj []))).1 =
      true := by
  refine ⟨by simp [isValidActivitySearchArgs, limitOk], rfl, rfl⟩

/-! ## C7: InChI routing -/

/-- C7: for every accepted (non-empty) input string, the handler issues one
`/molecule.json` request whose filter key is the standard-InChI key exactly
when the input starts with `"InChI="`, and the InChI-key filter otherwise. -/
theorem C7_inchi_routing (a : Args) (s : String) (hin : a.inchi = some s)
    (hv : isValidInchiSearchArgs a = true) (api : ApiFn) :
    (handleSearchByInchi a api).2 =
      [{ path := "/molecule.json",
         params := [("limit", PV.num (jsOrQ a.limit 25)), (inchiFilterKey s, PV.str s)] }] ∧
    (strStarts s ("InChI=") = true →
      inchiFilterKey s = "molecule_structures__standard_inchi") ∧
    (strStarts s ("InChI=") = false →
      inchiFilterKey s = "molecule_structures__standard_inchi_key") := by
  refine ⟨?_, fun h => by simp [inchiFilterKey, h], fun h => by simp [inchiFilterKey, h]⟩
  simp only [handleSearchByInchi, hv, Bool.not_true, Bool.false_eq_true, if_false, hin,
    Option.getD_some]
  exact runTry_get_trace _ _ _ api

/-- C7 witness: both literal examples from the claim — a full InChI goes to
the standard-InChI filter, an InChI key to the InChI-key filter. -/
theorem C7_inchi_routing_witness :
    (handleSearchByInchi { inchi := some "InChI=1S/H2O/h1H2" } (failApi "down")).2 =
      [{ path := "/molecule.json",
         params := [("limit", PV.num 25),
                    ("molecule_structures__standard_inchi",
                     PV.str "InChI=1S/H2O/h1H2")] }] ∧
    (handleSearchByInchi { inchi := some "BSYNRYMUTXBXSQ-UHFFFAOYSA-N" } (failApi "down")).2 =
      [{ path := "/molecule.json",
         params := [("limit", PV.num 25),
                    ("molecule_structures__standard_inchi_key",
                     PV.str "BSYNRYMUTXBXSQ-UHFFFAOYSA-N")] }] := by
  constructor
  · have h := C7_inchi_routing { inchi := some "InChI=1S/H2O/h1H2" } "InChI=1S/H2O/h1H2"
      rfl (by rfl) (failApi "down")
    rw [h.1, h.2.1 (by rfl)]
    rfl
  · have h := C7_inchi_routing { inchi := some "BSYNRYMUTXBXSQ-UHFFFAOYSA-N" }
      "BSYNRYMUTXBXSQ-UHFFFAOYSA-N" rfl (by rfl) (failApi "down")
    rw [h.1, h.2.2 (by rfl)]
    rfl

/-! ## C8: batch lookup cap and ordering -/

/-- C8: a valid batch request processes exactly the first `min(n, 10)`
identifiers, one upstream request each, in supply order, and the per-item
records carry the identifiers in the same order; identifiers beyond the
tenth are dropped without a validation error (validity admits up to 50). -/
theorem C8_batch_cap_and_order (a : Args) (ids : List String) (api : ApiFn)
    (hids : a.chembl_ids = some ids) (hv : isValidBatchArgs a = true) :
    handleBatchCompoundLookup a api =
      (Except.ok [ContentItem.json (Json.obj [("batch_results",
         Json.arr ((ids.take 10).map (batchRecord api)))])],
       (ids.take 10).map batchReq) ∧
    ((handleBatchCompoundLookup a api).2).length = min ids.length 10 ∧
    ((ids.take 10).map (batchRecord api)).map chemblIdOfRecord =
      (ids.take 10).map some := by
  have hmain : handleBatchCompoundLookup a api =
      (Except.ok [ContentItem.json (Json.obj [("batch_results",
         Json.arr ((ids.take 10).map (batchRecord api)))])],
       (ids.take 10).map batchReq) := by
    have hfp := forPush_item batchItem (batchRecord api) batchReq api
      (fun i => batchItem_apply i api) (ids.take 10)
    simp [handleBatchCompoundLookup, hv, hids, runTry, apiM_bind_apply, hfp, apiM_pure_apply]
  refine ⟨hmain, ?_, ?_⟩
  · rw [hmain]
    simp [List.length_take]
    omega
  · simp [List.map_map, Function.comp_def, batchRecord_chemblId]

/-- C8 witness: twelve identifiers are accepted by validation and exactly
ten upstream requests are issued. -/
theorem C8_batch_witness :
    ((handleBatchCompoundLookup
      { chembl_ids := some ["C1", "C2", "C3", "C4", "C5", "C6", "C7", "C8", "C9", "C10",
                            "C11", "C12"] }
      (failApi "down")).2).length = 10 := by
  have h := C8_batch_cap_and_order
    { chembl_ids := some ["C1", "C2", "C3", "C4", "C5", "C6", "C7", "C8", "C9", "C10",
                          "C11", "C12"] }
    ["C1", "C2", "C3", "C4", "C5", "C6", "C7", "C8", "C9", "C10", "C11", "C12"]
    (failApi "down") rfl (by rfl)
  rw [h.2.1]
  rfl

/-! ## C9: external-reference bucketing -/

/-- `x || ""` is the identity on present strings. -/
lemma jsOrStr_empty (x : String) : jsOrStr (some x) "" = x := by
  by_cases h : x = "" <;> simp [jsOrStr, h]

/-- C9: the categorisation of every merged cross-reference record agrees
with the claim's keyword table under case-insensitive substring matching;
in particular `xref_src_db = "PubChem"` lands under chemical databases
(bucket key `"pubchem"`) although the table is lowercase. -/
theorem C9_xref_bucketing :
    (∀ ref : XRef, bucketOf ref = claimBucket ref) ∧
    bucketOf { xref_src_db := some "PubChem" } = XrefBucket.chemical ∧
    (organizeCrossReferences
      [{ xref_src_db := some "PubChem", xref_id := some "2244" }]).chemical_databases =
      [("pubchem", [Json.obj
        [("database", Json.str "PubChem"),
         ("id", Json.str "2244"),
         ("name", Json.null),
         ("url", Json.str "https://pubchem.ncbi.nlm.nih.gov/compound/2244")]])] := by
  refine ⟨fun ref => ?_, by rfl, by rfl⟩
  rcases ref with ⟨db, i, nm⟩
  cases db with
  | none => rfl
  | some s =>
    simp [bucketOf, claimBucket, jsOrStr_empty, List.any_cons, List.any_nil,
      Bool.or_assoc, Bool.or_false]

/-! ## C10: dispatcher error rendering -/

/-- C10: every error raised while handling a tool call — unknown tool name,
invalid parameters, or a wrapped upstream failure — is rendered as a result
with exactly one text item `Error executing tool <name>: <message>` and
`isError` set; when no error is raised, `isError` is not set.  (`callTool`
is a total function, so no handler error escapes as an exception.) -/
theorem C10_error_rendering (name : String) (a : Args) (api : ApiFn) :
    (∀ e : McpErr, toolErrorOf name a api = some e →
      (callTool name a api).1 =
        { content := [ContentItem.text
            ("Error executing tool " ++ name ++ ": " ++ e.message)],
          isError := true }) ∧
    (toolErrorOf name a api = none → (callTool name a api).1.isError = false) := by
  unfold toolErrorOf callTool
  cases hd : dispatchTool name with
  | none =>
    dsimp only
    exact ⟨fun e he => (by cases he; rfl), fun h => (by cases h)⟩
  | some t =>
    dsimp only
    cases hr : runTool t a api with
    | mk r tr =>
      cases r with
      | ok out => exact ⟨fun e he => (by cases he), fun _ => rfl⟩
      | error e' => exact ⟨fun e he => (by cases he; rfl), fun h => (by cases h)⟩

/-- C10 witness: an unknown tool name is rendered as the single-item error
result. -/
theorem C10_error_rendering_witness :
    (callTool "no_such_tool" {} (failApi "x")).1 =
      { content := [ContentItem.text
          ("Error executing tool " ++ "no_such_tool" ++ ": " ++ ("Unknown tool: " ++ "no_such_tool"))],
        isError := true } :=
  (C10_error_rendering "no_such_tool" {} (failApi "x")).1
    { code := ErrCode.methodNotFound, message := "Unknown tool: " ++ "no_such_tool" } rfl

/-! ## C6: upstream failure policy -/

/-- C6 counterexample: `batch_compound_lookup` is neither the
external-reference aggregation nor the pathway mechanism lookup, its single
upstream call fails, and yet the tool invocation succeeds — the failure is
recorded per item instead of failing the whole call. -/
theorem C6_counterexample :
    Tool.batch_compound_lookup ≠ Tool.get_external_references ∧
    Tool.batch_compound_lookup ≠ Tool.get_target_pathways ∧
    (handleBatchCompoundLookup { chembl_ids := some ["CHEMBL25"] }
      (failApi "network down")).2 =
      [{ path := "/molecule/CHEMBL25.json", params := [] }] ∧
    failApi "network down" { path := "/molecule/CHEMBL25.json", params := [] } =
      Except.error "network down" ∧
    exOk (handleBatchCompoundLookup { chembl_ids := some ["CHEMBL25"] }
      (failApi "network down")).1 = true := by
  refine ⟨by decide, by decide, rfl, rfl, rfl⟩

/-- C6 (amended): when every upstream call fails with message `m`, every
accepted tool invocation other than `batch_compound_lookup` and
`compare_activities` fails as a whole with an internal error carrying the
tool's message prelude and the upstream message.  `batch_compound_lookup`
and `compare_activities` succeed instead, recording the failure per item
(`success: false`).  The best-effort sub-fetches — the external-reference
aggregation, the pathway mechanism lookup, and the substructure
query-structure analysis — degrade to an empty/partial contribution when
only their endpoints fail. -/
theorem C6_amended :
    (∀ (t : Tool) (a : Args) (m : String),
      t ∉ [Tool.batch_compound_lookup, Tool.compare_activities] →
      acceptsArgs t a = true →
      (runTool t a (failApi m)).1 =
        Except.error { code := ErrCode.internalError, message := errPre t ++ m }) ∧
    (∀ (a : Args) (ids : List String) (m : String),
      a.chembl_ids = some ids → isValidBatchArgs a = true →
      (runTool Tool.batch_compound_lookup a (failApi m)).1 =
        Except.ok [ContentItem.json (Json.obj [("batch_results",
          Json.arr ((ids.take 10).map (fun i => Json.obj
            [("chembl_id", Json.str i), ("error", Json.str m),
             ("success", Json.bool false)])))])]) ∧
    (∀ (a : Args) (ids : List String) (m : String),
      a.molecule_chembl_ids = some ids → acceptsArgs Tool.compare_activities a = true →
      (runTool Tool.compare_activities a (failApi m)).1 =
        Except.ok [ContentItem.json (Json.obj
          [("comparison_type", Json.str (jsOrStr a.activity_type "all_activities")),
           ("target_filter", Json.str (jsOrStr a.target_chembl_id "all_targets")),
           ("compounds_compared", Json.num ((ids.take 5).length : ℚ)),
           ("comparison_results", Json.arr ((ids.take 5).map (fun i => Json.obj
             [("molecule_chembl_id", Json.str i), ("error", Json.str m),
              ("success", Json.bool false)])))])]) ∧
    (∀ m : String,
      exOk (runTool Tool.get_external_references { chembl_id := some "CHEMBL25" }
        (optFailApi m)).1 = true) ∧
    (∀ m : String,
      exOk (runTool Tool.get_target_pathways { target_chembl_id := some "CHEMBL240" }
        (optFailApi m)).1 = true) ∧
    (∀ m : String,
      exOk (runTool Tool.substructure_search { smiles := some "c1ccccc1" }
        (moleculeFailApi m)).1 = true) := by
  refine ⟨?_, ?_, ?_, fun m => rfl, fun m => rfl, fun m => rfl⟩
  · intro t a m hmem hacc
    cases t with
    | batch_compound_lookup => exact absurd (by simp) hmem
    | compare_activities => exact absurd (by simp) hmem
    | search_compounds =>
      simp only [acceptsArgs] at hacc
      simp only [runTool, handleSearchCompounds, hacc, Bool.not_true, Bool.false_eq_true,
        if_false]
      rfl
    | get_compound_info =>
      simp only [acceptsArgs] at hacc
      simp only [runTool, handleGetCompoundInfo, hacc, Bool.not_true, Bool.false_eq_true,
        if_false]
      rfl
    | search_by_inchi =>
      simp only [acceptsArgs] at hacc
      simp only [runTool, handleSearchByInchi, hacc, Bool.not_true, Bool.false_eq_true,
        if_false]
      rfl
    | get_compound_structure =>
      simp only [acceptsArgs] at hacc
      have hn : a.chembl_id.isNone = false := by
        cases hc : a.chembl_id <;> simp_all
      simp only [runTool, handleGetCompoundStructure, hn, Bool.false_eq_true, if_false]
      rfl
    | search_similar_compounds =>
      simp only [acceptsArgs] at hacc
      simp only [runTool, handleSearchSimilarCompounds, hacc, Bool.not_true,
        Bool.false_eq_true, if_false]
      rfl
    | search_targets => rfl
    | get_target_info =>
      simp only [acceptsArgs] at hacc
      simp only [runTool, handleGetTargetInfo, hacc, Bool.not_true, Bool.false_eq_true,
        if_false]
      rfl
    | get_target_compounds =>
      simp only [acceptsArgs] at hacc
      have hn : a.target_chembl_id.isNone = false := by
        cases hc : a.target_chembl_id <;> simp_all
      simp only [runTool, handleGetTargetCompounds, hn, Bool.false_eq_true, if_false]
      rfl
    | search_by_uniprot =>
      simp only [acceptsArgs] at hacc
      have hn : a.uniprot_id.isNone = false := by
        cases hc : a.uniprot_id <;> simp_all
      simp only [runTool, handleSearchByUniprot, hn, Bool.false_eq_true, if_false]
      rfl
    | get_target_pathways =>
      simp only [acceptsArgs] at hacc
      have hn : a.target_chembl_id.isNone = false := by
        cases hc : a.target_chembl_id <;> simp_all
      simp only [runTool, handleGetTargetPathways, hn, Bool.false_eq_true, if_false]
      rfl
    | search_activities => rfl
    | get_assay_info =>
      simp only [acceptsArgs] at hacc
      simp only [runTool, handleGetAssayInfo, hacc, Bool.not_true, Bool.false_eq_true,
        if_false]
      rfl
    | search_by_activity_type =>
      simp only [acceptsArgs] at hacc
      have hn : a.activity_type.isNone = false := by
        cases hc : a.activity_type <;> simp_all
      simp only [runTool, handleSearchByActivityType, hn, Bool.false_eq_true, if_false]
      rfl
    | get_dose_response =>
      simp only [acceptsArgs] at hacc
      have hn : a.molecule_chembl_id.isNone = false := by
        cases hc : a.molecule_chembl_id <;> simp_all
      simp only [runTool, handleGetDoseResponse, hn, Bool.false_eq_true, if_false]
      rfl
    | search_drugs =>
      simp only [acceptsArgs] at hacc
      simp only [runTool, handleSearchDrugs, hacc, Bool.not_true, Bool.false_eq_true,
        if_false]
      rfl
    | get_drug_info =>
      simp only [acceptsArgs] at hacc
      simp only [runTool, handleGetDrugInfo, handleGetCompoundInfo, hacc, Bool.not_true,
        Bool.false_eq_true, if_false]
      rfl
    | search_drug_indications =>
      simp only [acceptsArgs] at hacc
      cases hi : a.indication with
      | none => rw [hi] at hacc; cases hacc
      | some s =>
        rw [hi] at hacc
        have hz : decide (s.length = 0) = false := by
          simp only [decide_eq_true_eq] at hacc
          simp only [decide_eq_false_iff_not]
          omega
        simp only [runTool, handleSearchDrugIndications, hi, hz, Bool.false_eq_true,
          if_false]
        rfl
    | get_mechanism_of_action =>
      simp only [acceptsArgs] at hacc
      have hn : a.chembl_id.isNone = false := by
        cases hc : a.chembl_id <;> simp_all
      simp only [runTool, handleGetMechanismOfAction, hn, Bool.false_eq_true, if_false]
      rfl
    | analyze_admet_properties =>
      simp only [acceptsArgs] at hacc
      have hn : a.chembl_id.isNone = false := by
        cases hc : a.chembl_id <;> simp_all
      simp only [runTool, handleAnalyzeAdmetProperties, hn, Bool.false_eq_true, if_false]
      rfl
    | calculate_descriptors =>
      simp only [acceptsArgs] at hacc
      have hval : (a.chembl_id.isNone && a.smiles.isNone) = false := by
        cases hc : a.chembl_id <;> cases hs : a.smiles <;> simp_all
      simp only [runTool, handleCalculateDescriptors, hval, Bool.false_eq_true, if_false]
      cases h : jsTruthyStr a.chembl_id <;>
        simp [runTry, fetchCompound, h, apiM_bind_apply, apiGet, failApi, errPre]
    | predict_solubility =>
      simp only [acceptsArgs] at hacc
      have hval : (a.chembl_id.isNone && a.smiles.isNone) = false := by
        cases hc : a.chembl_id <;> cases hs : a.smiles <;> simp_all
      simp only [runTool, handlePredictSolubility, hval, Bool.false_eq_true, if_false]
      cases h : jsTruthyStr a.chembl_id <;>
        simp [runTry, fetchCompound, h, apiM_bind_apply, apiGet, failApi, errPre]
    | assess_drug_likeness =>
      simp only [acceptsArgs] at hacc
      have hval : (a.chembl_id.isNone && a.smiles.isNone) = false := by
        cases hc : a.chembl_id <;> cases hs : a.smiles <;> simp_all
      simp only [runTool, handleAssessDrugLikeness, hval, Bool.false_eq_true, if_false]
      cases h : jsTruthyStr a.chembl_id <;>
        simp [runTry, fetchCompound, h, apiM_bind_apply, apiGet, failApi, errPre]
    | substructure_search =>
      simp only [acceptsArgs] at hacc
      simp only [runTool, handleSubstructureSearch, hacc, Bool.not_true, Bool.false_eq_true,
        if_false]
      rfl
    | get_external_references =>
      simp only [acceptsArgs] at hacc
      have hn : a.chembl_id.isNone = false := by
        cases hc : a.chembl_id <;> simp_all
      simp only [runTool, handleGetExternalReferences, hn, Bool.false_eq_true, if_false]
      rfl
    | advanced_search =>
      simp only [acceptsArgs] at hacc
      simp only [runTool, handleAdvancedSearch, hacc, Bool.not_true, Bool.false_eq_true,
        if_false]
      rfl
  · intro a ids m hids hv
    have hitem : ∀ i, batchItem i (failApi m) =
        (Except.ok (Json.obj [("chembl_id", Json.str i), ("error", Json.str m),
          ("success", Json.bool false)]), [batchReq i]) :=
      fun i => batchItem_apply i (failApi m)
    have hfp := forPush_item batchItem
      (fun i => Json.obj [("chembl_id", Json.str i), ("error", Json.str m),
        ("success", Json.bool false)])
      batchReq (failApi m) hitem (ids.take 10)
    simp [runTool, handleBatchCompoundLookup, hv, hids, runTry, apiM_bind_apply, hfp,
      apiM_pure_apply]
  · intro a ids m hids hacc
    simp only [acceptsArgs, hids, decide_eq_true_eq] at hacc
    have hitem : ∀ i, ((compareItem a i) (failApi m)).1 =
        Except.ok (Json.obj [("molecule_chembl_id", Json.str i), ("error", Json.str m),
          ("success", Json.bool false)]) :=
      fun i => compareItem_fail_fst a m i
    have hfp := forPush_fst (compareItem a)
      (fun i => Json.obj [("molecule_chembl_id", Json.str i), ("error", Json.str m),
        ("success", Json.bool false)])
      (failApi m) hitem (ids.take 5)
    simp only [runTool, handleCompareActivities, hids]
    rw [if_neg (by omega)]
    rw [runTry_fst]
    rw [apiM_bind_fst]
    rw [hfp]
    simp [apiM_pure_apply]

/-- C6 witness: a concrete accepted `search_compounds` invocation against a
failing oracle fails as a whole, carrying the upstream message. -/
theorem C6_amended_witness :
    (runTool Tool.search_compounds { query := some "aspirin" }
      (failApi "upstream unavailable")).1 =
      Except.error { code := ErrCode.internalError,
                     message := "Failed to search compounds: upstream unavailable" } :=
  C6_amended.1 Tool.search_compounds { query := some "aspirin" } "upstream unavailable"
    (by decide) (by rfl)

end Chembl
